import Mathlib

/-!
Verification of the TerminalLifeform simulation engine.

This file gives a shallow embedding of the simulation core (`src/main.py`,
`src/entity.py`, `src/entity_utils.py`, `src/params.py`) in Lean 4 and proves
properties of it.  Python floats are modelled as exact rationals (`ℚ`);
every call to the global random-number generator (`random.random`,
`random.uniform`, `random.sample`, `random.choice`) is modelled as a draw
from an explicit oracle supplied as an argument, and `uuid.uuid4` is
modelled as a separate entropy stream of natural numbers.  Mutable Python
objects held in lists are modelled by positional updates on immutable
lists, which is faithful because the engine never reorders its entity list
within an epoch.
-/

/-- Python `max(lo, min(hi, x))` clamping, as used throughout the engine. -/
def clampQ (lo hi x : ℚ) : ℚ := max lo (min hi x)

/-- Python `int(q)` on a float: truncation toward zero. -/
def pyTrunc (q : ℚ) : ℤ := if q < 0 then -(Int.floor (-q)) else Int.floor q

/-- Python 3 `round(q)` to an integer: round half to even (banker's rounding). -/
def pyRound (q : ℚ) : ℤ :=
  let f := Int.floor q
  let frac := q - (f : ℚ)
  if frac < 1/2 then f
  else if 1/2 < frac then f + 1
  else if f % 2 = 0 then f else f + 1

/-- Entity status strings of `main.py` (`"alive"`, `"thriving"`, `"struggling"`, `"dead"`). -/
inductive Status
  | alive
  | thriving
  | struggling
  | dead
deriving DecidableEq, Repr

/-- The per-entity parameter dictionary of `Entity.__init__` (main.py lines 42-58),
as a fixed-shape record.  All numeric values are rationals; `max_age` and
`min_reproduction_age` are integers in the defaults but may be floats after
overrides, so they are kept as `ℚ` and compared against the age cast to `ℚ`,
exactly as Python compares `int` with a number. -/
structure EntityParams where
  max_age : ℚ
  initial_health : ℚ
  initial_energy : ℚ
  metabolism_rate : ℚ
  health_recovery_rate : ℚ
  health_decay_rate : ℚ
  resilience : ℚ
  thriving_threshold_health : ℚ
  thriving_threshold_energy : ℚ
  struggling_threshold_health : ℚ
  struggling_threshold_energy : ℚ
  reproduction_chance : ℚ
  min_reproduction_age : ℚ
  aggression : ℚ
  cooperation : ℚ
deriving DecidableEq, Repr

/-- Default entity parameters from `Entity.__init__` in main.py (lines 42-58). -/
def defaultEntityParams : EntityParams where
  max_age := 101
  initial_health := 100
  initial_energy := 100
  metabolism_rate := 3/10
  health_recovery_rate := 13/10
  health_decay_rate := 3/2
  resilience := 21/100
  thriving_threshold_health := 65
  thriving_threshold_energy := 60
  struggling_threshold_health := 33
  struggling_threshold_energy := 22
  reproduction_chance := 27/20
  min_reproduction_age := 13
  aggression := 3/10
  cooperation := 1/10

/-- One simulation entity (`Entity` of main.py): short uuid-derived id (modelled
as a natural number drawn from an entropy stream), age in epochs, vitals,
status and the parameter bundle. -/
structure Entity where
  id : ℕ
  age : ℕ
  health : ℚ
  energy : ℚ
  status : Status
  params : EntityParams
deriving DecidableEq, Repr

/-- Entity construction (`Entity.__init__`, main.py lines 27-65): fresh id, age 0,
status `"alive"`, vitals seeded from the (possibly overridden) parameters. -/
def mkEntity (id : ℕ) (p : EntityParams) : Entity where
  id := id
  age := 0
  health := p.initial_health
  energy := p.initial_energy
  status := Status.alive
  params := p

/-- `Entity.is_alive` (main.py lines 67-69): any status other than `"dead"`. -/
def Entity.isAlive (e : Entity) : Bool := e.status ≠ Status.dead

/-- `Entity.update_status` (main.py lines 71-90): first-match-wins classification;
the dead branch also forces both vitals to zero. -/
def updateStatus (e : Entity) : Entity :=
  if e.health ≤ 0 ∨ (e.age : ℚ) ≥ e.params.max_age then
    { e with status := Status.dead, health := 0, energy := 0 }
  else if e.health ≥ e.params.thriving_threshold_health ∧
      e.energy ≥ e.params.thriving_threshold_energy then
    { e with status := Status.thriving }
  else if e.health ≤ e.params.struggling_threshold_health ∨
      e.energy ≤ e.params.struggling_threshold_energy then
    { e with status := Status.struggling }
  else
    { e with status := Status.alive }

/-- The environment-factor dictionary of `Simulation.__init__` (main.py lines
187-197), as a fixed-shape record. -/
structure EnvFactors where
  resource_availability : ℚ
  temperature : ℚ
  pollution : ℚ
  event_chance : ℚ
  interaction_strength : ℚ
  mutation_rate : ℚ
  mutation_strength : ℚ
  predator_threshold : ℚ
  predator_impact_percentage : ℚ
deriving DecidableEq, Repr

/-- Default environment factors from `Simulation.__init__` (main.py lines 187-197). -/
def defaultEnvFactors : EnvFactors where
  resource_availability := 1
  temperature := 25
  pollution := 0
  event_chance := 7/200
  interaction_strength := 1/2
  mutation_rate := 13/100
  mutation_strength := 1/20
  predator_threshold := 15
  predator_impact_percentage := 1/5

/-- `calculate_energy_change` (main.py lines 100-125, identical in
entity_utils.py): metabolised energy plus a scarcity surcharge when resources
are below 1 plus a sickness surcharge when health is below 50, returned
negated.  The `environment_factors.get(..., default)` lookups always find the
key because the simulation's environment dictionary is fully populated. -/
def calcEnergyChange (e : Entity) (env : EnvFactors) : ℚ :=
  let consumed := e.params.metabolism_rate
  let consumed :=
    if env.resource_availability < 1 then consumed + (1 - env.resource_availability) * 5
    else consumed
  let consumed :=
    if e.health < 50 then consumed + (50 - e.health) * (1/10)
    else consumed
  let negated := -consumed
  negated

/-- `calculate_health_change` (main.py lines 128-165, identical in
entity_utils.py): recovery above 50 energy or decay below it, plus temperature
and pollution penalties mitigated by resilience. -/
def calcHealthChange (e : Entity) (env : EnvFactors) : ℚ :=
  let hc : ℚ := 0
  let hc :=
    if e.energy > 50 then hc + (e.energy - 50) * e.params.health_recovery_rate * (1/10)
    else hc - (50 - e.energy) * e.params.health_decay_rate * (1/10)
  let hc :=
    if env.temperature < 10 ∨ env.temperature > 35 then
      hc - |env.temperature - 45/2| * (1 - e.params.resilience) * (1/10)
    else hc
  let hc :=
    if env.pollution > 1/10 then hc - env.pollution * (1 - e.params.resilience) * 5
    else hc
  hc

/-- `Simulation._process_entity` (main.py lines 287-302): skip dead entities;
otherwise age by one, apply the clamped energy delta, then the clamped health
delta (computed from the already-updated energy), then reclassify. -/
def processEntity (env : EnvFactors) (e : Entity) : Entity :=
  if ¬e.isAlive then e
  else
    let e := { e with age := e.age + 1 }
    let e := { e with energy := max 0 (min 100 (e.energy + calcEnergyChange e env)) }
    let e := { e with health := max 0 (min 100 (e.health + calcHealthChange e env)) }
    updateStatus e

/-- Scarcity penalty exactly as the specification words it:
`(1 − resource_availability) × 5`, applied only when `resource_availability < 1`. -/
def specScarcityPenalty (env : EnvFactors) : ℚ :=
  if env.resource_availability < 1 then (1 - env.resource_availability) * 5 else 0

/-- Sickness penalty exactly as the specification words it:
`(50 − health) × 0.1`, applied only when `health < 50`. -/
def specSicknessPenalty (health : ℚ) : ℚ :=
  if health < 50 then (50 - health) * (1/10) else 0

/-- Health delta exactly as the specification words it: energy
recovery/decay term, then subtract the temperature term when the temperature
is outside `[10, 35]`, then subtract the pollution term when pollution
exceeds `0.1`. -/
def specHealthDelta (e : Entity) (env : EnvFactors) : ℚ :=
  (if e.energy > 50 then (e.energy - 50) * e.params.health_recovery_rate * (1/10)
   else -((50 - e.energy) * e.params.health_decay_rate * (1/10)))
  - (if env.temperature < 10 ∨ env.temperature > 35 then
      |env.temperature - 45/2| * (1 - e.params.resilience) * (1/10)
     else 0)
  - (if env.pollution > 1/10 then env.pollution * (1 - e.params.resilience) * 5 else 0)

/-- Parameter dictionaries as ordered association lists from names to numbers,
modelling the raw Python `dict` that `Entity.__init__` and
`Simulation.__init__` manipulate before any typed access happens. -/
abbrev ParamDict : Type := List (String × ℚ)

/-- Python `d[k] = v` on an association list: replace the first binding of `k`
in place, or append a new binding when `k` is absent. -/
def dictInsert : ParamDict → String → ℚ → ParamDict
  | [], k, v => [(k, v)]
  | (k', v') :: rest, k, v =>
    if k' = k then (k, v) :: rest else (k', v') :: dictInsert rest k v

/-- Python `base.update(overrides)`: assign every override binding, in order,
into the base dictionary.  Unknown keys are appended, never rejected. -/
def dictUpdate (base : ParamDict) (overrides : ParamDict) : ParamDict :=
  overrides.foldl (fun d kv => dictInsert d kv.1 kv.2) base

/-- Dictionary lookup, Python `d[k]` / `d.get(k)` (first binding wins, which
matches `dictInsert` keeping a single binding per key). -/
def dictLookup : ParamDict → String → Option ℚ
  | [], _ => none
  | (k', v) :: rest, k => if k' = k then some v else dictLookup rest k

/-- The literal default parameter dictionary built by `Entity.__init__`
(main.py lines 42-58). -/
def defaultEntityParamsDict : ParamDict :=
  [("max_age", 101), ("initial_health", 100), ("initial_energy", 100),
   ("metabolism_rate", 3/10), ("health_recovery_rate", 13/10),
   ("health_decay_rate", 3/2), ("resilience", 21/100),
   ("thriving_threshold_health", 65), ("thriving_threshold_energy", 60),
   ("struggling_threshold_health", 33), ("struggling_threshold_energy", 22),
   ("reproduction_chance", 27/20), ("min_reproduction_age", 13),
   ("aggression", 3/10), ("cooperation", 1/10)]

/-- The literal default environment dictionary built by `Simulation.__init__`
(main.py lines 187-197). -/
def defaultEnvFactorsDict : ParamDict :=
  [("resource_availability", 1), ("temperature", 25), ("pollution", 0),
   ("event_chance", 7/200), ("interaction_strength", 1/2),
   ("mutation_rate", 13/100), ("mutation_strength", 1/20),
   ("predator_threshold", 15), ("predator_impact_percentage", 1/5)]

/-- Parameter-dictionary construction of `Entity.__init__` (main.py lines
60-62, identically entity.py lines 43-45): the provided overrides are merged
into the defaults by `dict.update`, with no validation of the key names. -/
def entityParamsInit (overrides : ParamDict) : ParamDict :=
  dictUpdate defaultEntityParamsDict overrides

/-- Environment-dictionary construction of `Simulation.__init__` (main.py
lines 198-199): overrides merged by `dict.update`, with no validation. -/
def envFactorsInit (overrides : ParamDict) : ParamDict :=
  dictUpdate defaultEnvFactorsDict overrides

/-- Checked construction as the specification words it (spec section 7):
an override mapping containing a parameter name that is not one of the known
keys is rejected with a `ConfigurationError` at construction time.  This
definition follows the specification's words and exists to be compared with
`entityParamsInit`, the definition translated from the source. -/
def checkedEntityParamsInitSpec (overrides : ParamDict) : Except String ParamDict :=
  if overrides.all (fun kv => (dictLookup defaultEntityParamsDict kv.1).isSome) then
    Except.ok (dictUpdate defaultEntityParamsDict overrides)
  else
    Except.error "ConfigurationError"

/-- Replace the element at one position of a list, leaving every other
position unchanged.  This models Python mutating one object held in the
engine's entity list, since the engine never reorders that list in place. -/
def modifyAt : List Entity → ℕ → (Entity → Entity) → List Entity
  | [], _, _ => []
  | x :: xs, 0, f => f x :: xs
  | x :: xs, n + 1, f => x :: modifyAt xs n f

/-- Health at a position, defaulting to 0 out of range. -/
def healthAtD (pop : List Entity) (i : ℕ) : ℚ := ((pop.get? i).map Entity.health).getD 0

/-- Energy at a position, defaulting to 0 out of range. -/
def energyAtD (pop : List Entity) (i : ℕ) : ℚ := ((pop.get? i).map Entity.energy).getD 0

/-- Status at a position, defaulting to `dead` out of range. -/
def statusAtD (pop : List Entity) (i : ℕ) : Status :=
  ((pop.get? i).map Entity.status).getD Status.dead

/-- Age at a position, defaulting to 0 out of range. -/
def ageAtD (pop : List Entity) (i : ℕ) : ℕ := ((pop.get? i).map Entity.age).getD 0

/-- Id at a position, defaulting to 0 out of range. -/
def idAtD (pop : List Entity) (i : ℕ) : ℕ := ((pop.get? i).map Entity.id).getD 0

/-- Aggression parameter at a position, defaulting to 0 out of range. -/
def aggressionAtD (pop : List Entity) (i : ℕ) : ℚ :=
  ((pop.get? i).map (fun e => e.params.aggression)).getD 0

/-- Aliveness of the entity at a position, defaulting to false out of range. -/
def isAliveAtD (pop : List Entity) (i : ℕ) : Bool :=
  ((pop.get? i).map Entity.isAlive).getD false

/-- Positions of the currently live entities, in list order
(`[e for e in self.entities if e.is_alive()]`, read positionally). -/
def aliveIndices (pop : List Entity) : List ℕ :=
  (List.range pop.length).filter (fun i => isAliveAtD pop i)

/-- Positions of the currently struggling live entities, in list order
(`[e for e in self.entities if e.status == "struggling" and e.is_alive()]`). -/
def strugglingIndices (pop : List Entity) : List ℕ :=
  (List.range pop.length).filter
    (fun i => statusAtD pop i = Status.struggling ∧ isAliveAtD pop i)

/-- Count of currently live entities
(`len([e for e in self.entities if e.is_alive()])`). -/
def countAlive (pop : List Entity) : ℕ := (pop.filter Entity.isAlive).length

/-- Interaction intensity of `_handle_interactions` (main.py lines 315-320):
`(1 − resource_availability) + num_alive/100`, clamped into `[0.1, 1.0]`. -/
def interactionModifier (env : EnvFactors) (numAlive : ℕ) : ℚ :=
  min 1 (max (1/10) ((1 - env.resource_availability) + (numAlive : ℚ) / 100))

/-- One sampled pair of the interaction loop (main.py lines 333-354): when
both endpoints currently have a non-dead status, the attacker at position `i`
damages the target at position `j` (health by the full damage, energy by
half, each floored at 0 immediately), and then the target's aggression
damages the attacker symmetrically. -/
def interactionStep (env : EnvFactors) (modifier : ℚ) (pop : List Entity) (i j : ℕ) :
    List Entity :=
  match pop.get? i, pop.get? j with
  | some e1, some e2 =>
    if e1.isAlive ∧ e2.isAlive then
      let d2 := e1.params.aggression * env.interaction_strength * modifier
      let pop := modifyAt pop j (fun e =>
        { e with health := max 0 (e.health - d2), energy := max 0 (e.energy - d2 / 2) })
      let d1 := e2.params.aggression * env.interaction_strength * modifier
      modifyAt pop i (fun e =>
        { e with health := max 0 (e.health - d1), energy := max 0 (e.energy - d1 / 2) })
    else pop
  | _, _ => pop

/-- Inner loop of `_handle_interactions` (main.py line 333): apply the pair
body for one attacker position `i` against each sampled target position in
order. -/
def targetsFold (env : EnvFactors) (modifier : ℚ) (i : ℕ) :
    List ℕ → List Entity → List Entity
  | [], pop => pop
  | j :: rest, pop => targetsFold env modifier i rest (interactionStep env modifier pop i j)

/-- Outer loop of `_handle_interactions` (main.py lines 322-354): each
attacker position from the start-of-pass live list takes its turn; its
potential targets are the start-of-pass live positions whose entity id
differs from the attacker's (ids never change, so reading them from the
start-of-pass list equals reading them live); `k` is the enumeration index
that indexes the sampler draws. -/
def attackerRounds (env : EnvFactors) (modifier : ℚ) (alivePos : List ℕ)
    (pop0 : List Entity) (numInteractions : ℕ) (sample : ℕ → List ℕ → ℕ → List ℕ) :
    List ℕ → ℕ → List Entity → List Entity
  | [], _, pop => pop
  | i :: rest, k, pop =>
    let potentialPos := alivePos.filter (fun j => idAtD pop0 j ≠ idAtD pop0 i)
    let pop' :=
      if potentialPos = [] then pop
      else targetsFold env modifier i (sample k potentialPos numInteractions) pop
    attackerRounds env modifier alivePos pop0 numInteractions sample rest (k + 1) pop'

/-- `Simulation._handle_interactions` (main.py lines 304-360).  The pass is
skipped below two live entities.  Each live entity in turn attacks up to
`min(num_alive − 1, 3)` partners sampled (by `random.sample`, modelled by the
`sample` oracle, indexed by the attacker's round) from the live positions
whose id differs from the attacker's.  The live set, its count and the
modifier are all fixed at the start of the pass, as in the source. -/
def handleInteractions (env : EnvFactors) (sample : ℕ → List ℕ → ℕ → List ℕ)
    (pop : List Entity) : List Entity :=
  let alivePos := aliveIndices pop
  let numAlive := alivePos.length
  if numAlive < 2 then pop
  else
    let modifier := interactionModifier env numAlive
    let numInteractions := min (numAlive - 1) 3
    attackerRounds env modifier alivePos pop numInteractions sample alivePos 0 pop

/-- The random draws consumed by one call of `_apply_mutation`
(main.py lines 362-403): for each of the five mutable parameters, a gate draw
from `random.random()` compared against `mutation_rate`, and a relative-change
draw from `random.uniform(-mutation_strength, mutation_strength)`. -/
structure MutDraws where
  gAge : ℚ
  uAge : ℚ
  gMet : ℚ
  uMet : ℚ
  gRes : ℚ
  uRes : ℚ
  gRep : ℚ
  uRep : ℚ
  gAgg : ℚ
  uAgg : ℚ
deriving DecidableEq, Repr

/-- `Simulation._apply_mutation` (main.py lines 362-403): a copy of the
parameters in which each of the five mutable parameters, when its gate draw
falls below `mutation_rate`, receives `value += value * u` and is clamped to
its fixed bounds; `max_age` is additionally rounded to an integer before
clamping (Python `int(round(...))` then integer bounds).  The dictionary
iteration order of the source (`max_age`, `metabolism_rate`, `resilience`,
`reproduction_chance`, `aggression`) is kept. -/
def applyMutation (rate strength : ℚ) (p : EntityParams) (d : MutDraws) : EntityParams :=
  let _ := strength
  let p :=
    if d.gAge < rate then
      { p with max_age :=
          ((max 50 (min 200 (pyRound (p.max_age + p.max_age * d.uAge))) : ℤ) : ℚ) }
    else p
  let p :=
    if d.gMet < rate then
      { p with metabolism_rate :=
          (max (1/10) (min 1 (p.metabolism_rate + p.metabolism_rate * d.uMet))) }
    else p
  let p :=
    if d.gRes < rate then
      { p with resilience := max 0 (min 1 (p.resilience + p.resilience * d.uRes)) }
    else p
  let p :=
    if d.gRep < rate then
      { p with reproduction_chance :=
          (max (1/100) (min (3/20) (p.reproduction_chance + p.reproduction_chance * d.uRep))) }
    else p
  let p :=
    if d.gAgg < rate then
      { p with aggression := max 0 (min 1 (p.aggression + p.aggression * d.uAgg)) }
    else p
  p

/-- The random draws consumed per entity scanned by `_handle_reproduction`
(main.py lines 405-431): the Bernoulli draw against `reproduction_chance`,
the mutation draws for the offspring parameters, and the two
`random.uniform(80, 100)` draws overriding the offspring's initial vitals. -/
structure ReproDraws where
  reproU : ℚ
  mutd : MutDraws
  initH : ℚ
  initE : ℚ
deriving DecidableEq, Repr

/-- The reproduction eligibility test of `_handle_reproduction` (main.py lines
411-415): thriving status, age at least `min_reproduction_age`, and the
Bernoulli draw falling below `reproduction_chance`. -/
def reproduces (e : Entity) (draw : ℚ) : Bool :=
  e.status = Status.thriving ∧ (e.age : ℚ) ≥ e.params.min_reproduction_age ∧
    draw < e.params.reproduction_chance

/-- Offspring construction of `_handle_reproduction` (main.py lines 416-426):
copy the parent's parameters, mutate them, override the initial vitals with
the uniform draws, and construct a new entity from the result. -/
def mkOffspring (env : EnvFactors) (parent : Entity) (d : ReproDraws) (childId : ℕ) : Entity :=
  let childParams := applyMutation env.mutation_rate env.mutation_strength parent.params d.mutd
  let childParams := { childParams with initial_health := d.initH, initial_energy := d.initE }
  mkEntity childId childParams

/-- Events emitted by the engine to its logger, restricted to the emissions
that carry simulation state: predator removals (main.py lines 283-285), death
reports (lines 463-466), births (lines 428-430) and the per-epoch population
summary (lines 479-481). -/
inductive Event
  | predator (eid : ℕ) (t : ℕ)
  | died (eid : ℕ) (age : ℕ)
  | born (parentId childId : ℕ) (t : ℕ)
  | summary (t aliveCount thrivingCount strugglingCount : ℕ)
deriving DecidableEq, Repr

/-- An event with its entity identifiers erased, for comparing traces up to
the uuid entropy that produced the identifiers. -/
def Event.stripIds : Event → Event
  | .predator _ t => .predator 0 t
  | .died _ age => .died 0 age
  | .born _ _ t => .born 0 0 t
  | .summary t a th st => .summary t a th st

/-- `Simulation._handle_reproduction` (main.py lines 405-431): scan the
population in order; every entity passing `reproduces` contributes an
offspring (built from its own draws and the next uuid from the entropy
stream) and a birth event; offspring are appended only after the scan.
Returns the offspring list, the advanced uuid counter and the birth events.
The parent itself is not modified anywhere in this function. -/
def reproScan (env : EnvFactors) (draws : ℕ → ReproDraws) (u : ℕ → ℕ) (t : ℕ) :
    List Entity → ℕ → ℕ → List Entity × ℕ × List Event
  | [], _, uuidCtr => ([], uuidCtr, [])
  | e :: rest, n, uuidCtr =>
    if reproduces e (draws n).reproU then
      let child := mkOffspring env e (draws n) (u uuidCtr)
      let r := reproScan env draws u t rest (n + 1) (uuidCtr + 1)
      (child :: r.1, r.2.1, Event.born e.id child.id t :: r.2.2)
    else reproScan env draws u t rest (n + 1) uuidCtr

/-- `Simulation._handle_reproduction` including the final
`self.entities.extend(new_entities)`. -/
def handleReproduction (env : EnvFactors) (draws : ℕ → ReproDraws) (u : ℕ → ℕ) (t : ℕ)
    (uuidCtr : ℕ) (pop : List Entity) : List Entity × ℕ × List Event :=
  let scanned := reproScan env draws u t pop 0 uuidCtr
  (pop ++ scanned.1, scanned.2.1, scanned.2.2)

/-- Disease-outbreak damage (main.py lines 240-247): each sampled entity, when
still alive, loses a `uniform(10, 30)` draw of health, floored at zero.  The
`dmg` oracle is indexed by the position of the target within the sampled
list. -/
def applyDisease (dmg : ℕ → ℚ) : List ℕ → ℕ → List Entity → List Entity
  | [], _, pop => pop
  | i :: rest, n, pop =>
    applyDisease dmg rest (n + 1)
      (modifyAt pop i (fun e =>
        if e.isAlive then { e with health := max 0 (e.health - dmg n) } else e))

/-- Predator kill of one entity (main.py lines 280-282): health forced to 0,
then reclassified, which marks it dead with both vitals zero. -/
def predatorKill (e : Entity) : Entity := updateStatus { e with health := 0 }

/-- Removal count of the predator block (main.py lines 260-265):
`max(1, int(alive_count * predator_impact_percentage))`. -/
def predNumToRemove (env : EnvFactors) (aliveCount : ℕ) : ℕ :=
  (max 1 (pyTrunc ((aliveCount : ℚ) * env.predator_impact_percentage))).toNat

/-- Predator kill loop (main.py lines 280-285): kill each target position in
order, emitting one predator event per removed entity. -/
def predatorKillAll (t : ℕ) : List ℕ → List Entity → List Entity × List Event
  | [], pop => (pop, [])
  | i :: rest, pop =>
    let ev := Event.predator (idAtD pop i) t
    let r := predatorKillAll t rest (modifyAt pop i predatorKill)
    (r.1, ev :: r.2)

/-- The predator block of `_update_environment` (main.py lines 257-285).
When the live count exceeds `predator_threshold`, `max(1, int(live*impact))`
entities are removed: sampled from the struggling live entities when enough
of them exist, otherwise sampled from all live entities, and each sampled
entity is killed instantly, emitting a predator event. -/
def predatorStep (sample : List ℕ → ℕ → List ℕ) (env : EnvFactors) (t : ℕ)
    (pop : List Entity) : List Entity × List Event :=
  let aliveCount := countAlive pop
  if (aliveCount : ℚ) > env.predator_threshold then
    let numToRemove := predNumToRemove env aliveCount
    let strugglingPos := strugglingIndices pop
    let targets :=
      if numToRemove ≤ strugglingPos.length then sample strugglingPos numToRemove
      else sample (aliveIndices pop) (min numToRemove aliveCount)
    predatorKillAll t targets pop
  else (pop, [])

/-- All random draws (other than the uuid entropy stream) consumed by one
epoch of the run loop: the environment-event gate and choice draws, the
disease-outbreak sampler and damage draws, the heatwave bump, the predator
sampler, the interaction samplers, and the per-entity reproduction draws.
Samplers stand for `random.sample` applied to a pool of list positions. -/
structure EpochOracle where
  eventU : ℚ
  eventChoice : ℕ
  diseaseSample : List ℕ → ℕ → List ℕ
  diseaseDmg : ℕ → ℚ
  heatBump : ℚ
  predatorSample : List ℕ → ℕ → List ℕ
  interactionSample : ℕ → List ℕ → ℕ → List ℕ
  reproDraws : ℕ → ReproDraws

/-- Deterministic environment drift of `_update_environment` (main.py lines
218-226), as a function of the current epoch and the configured total. -/
def driftEnv (env : EnvFactors) (t total : ℕ) : EnvFactors :=
  { env with
    resource_availability := max (1/10) (1 - ((t : ℚ) / (total : ℚ)) * (1/2)),
    temperature := 25 + 10 * ((t : ℚ) / (total : ℚ) - 1/2),
    pollution := min (4/5) (((t : ℚ) / (total : ℚ)) * (3/10)) }

/-- Stochastic event block of `_update_environment` (main.py lines 229-255):
with probability `event_chance`, one of resource spike, disease outbreak or
heatwave, chosen uniformly (`random.choice` over the three names, modelled by
`eventChoice` modulo 3 in the source's list order). -/
def applyEnvEvent (o : EpochOracle) (env : EnvFactors) (pop : List Entity) :
    EnvFactors × List Entity :=
  if o.eventU < env.event_chance then
    match o.eventChoice % 3 with
    | 0 => ({ env with resource_availability := min 1 (env.resource_availability + 1/5) }, pop)
    | 1 =>
      let targets := o.diseaseSample (List.range pop.length) (min pop.length 3)
      (env, applyDisease o.diseaseDmg targets 0 pop)
    | _ => ({ env with temperature := min 45 (env.temperature + o.heatBump) }, pop)
  else (env, pop)

/-- Simulation state threaded through the run loop: the entity list, the
environment dictionary, and the position of the uuid entropy stream (how many
uuids have been drawn so far for entities created during the run). -/
structure SimState where
  entities : List Entity
  env : EnvFactors
  uuidCtr : ℕ
deriving Repr

/-- One epoch of `Simulation.run_simulation` (main.py lines 439-487) for time
`t` out of `total`: environment drift and events, predator culling, per-entity
processing, interactions, a second status pass with death reports, removal of
the dead, reproduction, and the population summary.  Returns the new state
and the events emitted during the epoch, in emission order. -/
def epochStep (total t : ℕ) (u : ℕ → ℕ) (o : EpochOracle) (s : SimState) :
    SimState × List Event :=
  let env1 := driftEnv s.env t total
  let stepped := applyEnvEvent o env1 s.entities
  let env2 := stepped.1
  let culled := predatorStep o.predatorSample env2 t stepped.2
  let pop3 := culled.1.map (processEntity env2)
  let pop4 := handleInteractions env2 o.interactionSample pop3
  let pop5 := pop4.map updateStatus
  let deathEvents := pop5.filterMap (fun e =>
    if e.isAlive then none else some (Event.died e.id e.age))
  let pop6 := pop5.filter Entity.isAlive
  let bred := handleReproduction env2 o.reproDraws u t s.uuidCtr pop6
  let pop7 := bred.1
  let aliveCount := pop7.length
  let thrivingCount := (pop7.filter (fun e => e.status = Status.thriving)).length
  let strugglingCount := (pop7.filter (fun e => e.status = Status.struggling)).length
  (⟨pop7, env2, bred.2.1⟩,
    culled.2 ++ deathEvents ++ bred.2.2 ++
      [Event.summary t aliveCount thrivingCount strugglingCount])

/-- The run loop of `Simulation.run_simulation` (main.py lines 439-487),
collecting the emitted events of every epoch.  The loop stops early, after
emitting the epoch's events, once the population is empty. -/
def runAux (total : ℕ) (u : ℕ → ℕ) (os : ℕ → EpochOracle) :
    ℕ → ℕ → SimState → List Event
  | 0, _, _ => []
  | fuel + 1, t, s =>
    let step := epochStep total t u (os t) s
    if step.1.entities.length = 0 then step.2
    else step.2 ++ runAux total u os fuel (t + 1) step.1

/-- A full simulation run over the configured number of epochs
(`run_simulation`), as the sequence of emitted events. -/
def runSim (total : ℕ) (u : ℕ → ℕ) (os : ℕ → EpochOracle) (s : SimState) : List Event :=
  runAux total u os total 0 s

/-! ## Concrete fixtures used by witnesses and counterexamples -/

/-- Mutation draws whose gates all fail (1 is never below a rate ≤ 1), so no
parameter mutates. -/
def noMutDraws : MutDraws :=
  { gAge := 1, uAge := 0, gMet := 1, uMet := 0, gRes := 1, uRes := 0,
    gRep := 1, uRep := 0, gAgg := 1, uAgg := 0 }

/-- Reproduction draws that succeed (draw 1/2 is below the default chance)
with no mutation and offspring vitals of 90. -/
def okReproDraws : ReproDraws :=
  { reproU := 1/2, mutd := noMutDraws, initH := 90, initE := 90 }

/-- A thriving parent of reproduction age with health 80. -/
def c2parent : Entity :=
  { id := 3, age := 20, health := 80, energy := 70, status := Status.thriving,
    params := defaultEntityParams }

/-- An entity with default parameters, given status and health 50. -/
def plainEntity (id : ℕ) (st : Status) : Entity :=
  { id := id, age := 5, health := 50, energy := 50, status := st,
    params := defaultEntityParams }

/-- Population of four live entities of which exactly one (id 1) is
struggling. -/
def cullPop : List Entity :=
  [plainEntity 0 Status.alive, plainEntity 1 Status.struggling,
   plainEntity 2 Status.alive, plainEntity 3 Status.alive]

/-- Environment whose predator triggers at four live entities and removes
half of them. -/
def cullEnv : EnvFactors :=
  { defaultEnvFactors with predator_threshold := 2, predator_impact_percentage := 1/2 }

/-- A possible value of the uniform sampler: the positions other than 1, in
pool order.  On the pool of all four live positions this is a valid
without-replacement sample that happens to avoid the struggling entity. -/
def cullSampler : List ℕ → ℕ → List ℕ := fun pool k => (pool.filter (fun x => x ≠ 1)).take k

/-- An entity whose constructed-in aggression override is negative. -/
def negAggressor : Entity :=
  { id := 1, age := 0, health := 100, energy := 100, status := Status.alive,
    params := { defaultEntityParams with aggression := -10000 } }

/-- A default-parameter entity. -/
def plainVictim : Entity :=
  { id := 2, age := 0, health := 100, energy := 100, status := Status.alive,
    params := defaultEntityParams }

/-- An epoch oracle drawing no environment event, deterministic take-first
samples and non-reproducing draws. -/
def quietOracle : EpochOracle :=
  { eventU := 1, eventChoice := 0,
    diseaseSample := fun pool k => pool.take k,
    diseaseDmg := fun _ => 20,
    heatBump := 0,
    predatorSample := fun pool k => pool.take k,
    interactionSample := fun _ pool k => pool.take k,
    reproDraws := fun _ => okReproDraws }

/-- Initial state for the C1 counterexample: a negative-aggression entity
next to a default one. -/
def negAggState : SimState :=
  { entities := [negAggressor, plainVictim], env := defaultEnvFactors, uuidCtr := 0 }

/-- Initial state with two default entities, for the C1 witness. -/
def plainState : SimState :=
  { entities := [plainEntity 1 Status.alive, plainEntity 2 Status.alive],
    env := defaultEnvFactors, uuidCtr := 0 }

/-- A parent able to reproduce in the first epoch (minimum reproduction age
overridden to 0 at construction). -/
def c9parent : Entity := mkEntity 7 { defaultEntityParams with min_reproduction_age := 0 }

/-- Initial state for the determinism scenario: the single parent. -/
def c9state : SimState := { entities := [c9parent], env := defaultEnvFactors, uuidCtr := 0 }

/-- An otherwise healthy entity whose health is zero, about to be
classified. -/
def c6entity : Entity :=
  { id := 0, age := 0, health := 0, energy := 50, status := Status.alive,
    params := defaultEntityParams }

/-- An entity whose health has already been knocked to 0 mid-pass while its
status still reads `struggling`. -/
def zeroHealthAttacker : Entity :=
  { id := 9, age := 5, health := 0, energy := 40, status := Status.struggling,
    params := defaultEntityParams }

/-- A two-entity population whose first member has zero health but a live
status. -/
def zeroHealthPop : List Entity := [zeroHealthAttacker, plainEntity 2 Status.alive]

/-- An entity with its identifier erased, for comparing runs up to the uuid
entropy that produced the identifiers. -/
def Entity.eraseId (e : Entity) : Entity := { e with id := 0 }

/-- Well-formedness of a population against the remaining uuid entropy
stream: the current identifiers are pairwise distinct and no uuid still to
be drawn collides with one of them. -/
def IdsOk (u : ℕ → ℕ) (ctr : ℕ) (pop : List Entity) : Prop :=
  (pop.map Entity.id).Nodup ∧ ∀ n, ctr ≤ n → u n ∉ pop.map Entity.id

/-- The vitals invariant of the specification: both health and energy lie in
`[0, 100]`. -/
def vitalsBounded (e : Entity) : Prop :=
  0 ≤ e.health ∧ e.health ≤ 100 ∧ 0 ≤ e.energy ∧ e.energy ≤ 100

instance (e : Entity) : Decidable (vitalsBounded e) := by
  unfold vitalsBounded
  infer_instance

/-! ## Basic lemmas about positional updates and accessors -/

lemma modifyAt_length (l : List Entity) (i : ℕ) (f : Entity → Entity) :
    (modifyAt l i f).length = l.length := by
  induction l generalizing i with
  | nil => rfl
  | cons x xs ih =>
    cases i with
    | zero => rfl
    | succ n => simp [modifyAt, ih]

lemma modifyAt_get? (l : List Entity) (i j : ℕ) (f : Entity → Entity) :
    (modifyAt l i f).get? j = if i = j then (l.get? j).map f else l.get? j := by
  induction l generalizing i j with
  | nil => simp [modifyAt]
  | cons x xs ih =>
    cases i with
    | zero =>
      cases j with
      | zero => simp [modifyAt]
      | succ m => simp [modifyAt]
    | succ n =>
      cases j with
      | zero => simp [modifyAt]
      | succ m => simpa [modifyAt, Nat.succ_inj] using ih n m

/-! ## Claim C5: the per-epoch vitals deltas -/

/-- C5: for every live entity and environment state, the energy delta equals
`-(metabolism_rate + scarcity_penalty + sickness_penalty)` with the scarcity
penalty `(1 − resource_availability) × 5` applied only when
`resource_availability < 1` and the sickness penalty `(50 − health) × 0.1`
applied only when `health < 50`; and the health delta is the recovery/decay
term plus the conditional temperature and pollution penalties, exactly as the
specification words them. -/
theorem claim_c5_vitals_deltas (e : Entity) (env : EnvFactors) :
    calcEnergyChange e env =
      -(e.params.metabolism_rate + specScarcityPenalty env + specSicknessPenalty e.health) ∧
    calcHealthChange e env = specHealthDelta e env := by
  constructor
  · simp only [calcEnergyChange, specScarcityPenalty, specSicknessPenalty]
    split_ifs <;> ring
  · simp only [calcHealthChange, specHealthDelta]
    split_ifs <;> ring

/-! ## Claim C6: the dead-classification invariant -/

/-- C6: immediately after `update_status`, the status is `dead` exactly when
both vitals are zero; the dead branch is taken exactly when `health ≤ 0` or
`age ≥ max_age` held at entry, and in that case both vitals are forced to
zero. -/
theorem claim_c6_dead_iff_zero_vitals (e : Entity) :
    ((updateStatus e).status = Status.dead ↔
      ((updateStatus e).health = 0 ∧ (updateStatus e).energy = 0)) ∧
    ((updateStatus e).status = Status.dead ↔
      (e.health ≤ 0 ∨ (e.age : ℚ) ≥ e.params.max_age)) ∧
    ((e.health ≤ 0 ∨ (e.age : ℚ) ≥ e.params.max_age) →
      ((updateStatus e).health = 0 ∧ (updateStatus e).energy = 0)) := by
  unfold updateStatus
  split_ifs with h1 h2 h3
  · exact ⟨by simp, by simp [h1], fun _ => by simp⟩
  all_goals
    push_neg at h1
    refine ⟨⟨fun hcon => by simp at hcon, ?_⟩,
      ⟨fun hcon => by simp at hcon, fun hcond => absurd hcond (by push_neg; exact h1)⟩,
      fun hcond => absurd hcond (by push_neg; exact h1)⟩
    rintro ⟨hh, -⟩
    have hh' : e.health = 0 := hh
    exact absurd hh' (ne_of_gt h1.1)

theorem claim_c6_witness :
    (updateStatus c6entity).status = Status.dead ∧
    (updateStatus c6entity).health = 0 ∧ (updateStatus c6entity).energy = 0 :=
  ⟨(claim_c6_dead_iff_zero_vitals c6entity).2.1.mpr (Or.inl (by norm_num [c6entity])),
   (claim_c6_dead_iff_zero_vitals c6entity).2.2 (Or.inl (by norm_num [c6entity]))⟩

/-! ## Claim C7: the mutation engine -/

/-- C7: `_apply_mutation` mutates each of the five mutable parameters
independently: when its gate draw falls below `mutation_rate` the parameter
receives `value += value * u` (with `u` the `uniform(-mutation_strength,
mutation_strength)` draw) and is clamped to its fixed bounds — `max_age`
integer-rounded into `[50, 200]`, `metabolism_rate` into `[0.1, 1.0]`,
`resilience` into `[0, 1]`, `reproduction_chance` into `[0.01, 0.15]`,
`aggression` into `[0, 1]` — and every other parameter of the bundle is
returned unchanged. -/
theorem claim_c7_mutation_engine (rate strength : ℚ) (p : EntityParams) (d : MutDraws) :
    ((applyMutation rate strength p d).max_age =
      if d.gAge < rate then
        ((max 50 (min 200 (pyRound (p.max_age + p.max_age * d.uAge))) : ℤ) : ℚ)
      else p.max_age) ∧
    ((applyMutation rate strength p d).metabolism_rate =
      if d.gMet < rate then
        max (1/10) (min 1 (p.metabolism_rate + p.metabolism_rate * d.uMet))
      else p.metabolism_rate) ∧
    ((applyMutation rate strength p d).resilience =
      if d.gRes < rate then max 0 (min 1 (p.resilience + p.resilience * d.uRes))
      else p.resilience) ∧
    ((applyMutation rate strength p d).reproduction_chance =
      if d.gRep < rate then
        max (1/100) (min (3/20) (p.reproduction_chance + p.reproduction_chance * d.uRep))
      else p.reproduction_chance) ∧
    ((applyMutation rate strength p d).aggression =
      if d.gAgg < rate then max 0 (min 1 (p.aggression + p.aggression * d.uAgg))
      else p.aggression) ∧
    (applyMutation rate strength p d).initial_health = p.initial_health ∧
    (applyMutation rate strength p d).initial_energy = p.initial_energy ∧
    (applyMutation rate strength p d).health_recovery_rate = p.health_recovery_rate ∧
    (applyMutation rate strength p d).health_decay_rate = p.health_decay_rate ∧
    (applyMutation rate strength p d).thriving_threshold_health = p.thriving_threshold_health ∧
    (applyMutation rate strength p d).thriving_threshold_energy = p.thriving_threshold_energy ∧
    (applyMutation rate strength p d).struggling_threshold_health = p.struggling_threshold_health ∧
    (applyMutation rate strength p d).struggling_threshold_energy = p.struggling_threshold_energy ∧
    (applyMutation rate strength p d).min_reproduction_age = p.min_reproduction_age ∧
    (applyMutation rate strength p d).cooperation = p.cooperation := by
  unfold applyMutation
  split_ifs <;>
    exact ⟨rfl, rfl, rfl, rfl, rfl, rfl, rfl, rfl, rfl, rfl, rfl, rfl, rfl, rfl, rfl⟩

/-! ## Claim C3: construction with unknown override keys -/

lemma dictInsert_lookup_self (d : ParamDict) (k : String) (v : ℚ) :
    dictLookup (dictInsert d k v) k = some v := by
  induction d with
  | nil => simp [dictInsert, dictLookup]
  | cons kv rest ih =>
    obtain ⟨k0, v0⟩ := kv
    by_cases h : k0 = k
    · simp [dictInsert, h, dictLookup]
    · simp only [dictInsert, if_neg h, dictLookup, if_neg h]
      exact ih

lemma dictInsert_lookup_other (d : ParamDict) (k k' : String) (v : ℚ) (h : k ≠ k') :
    dictLookup (dictInsert d k v) k' = dictLookup d k' := by
  induction d with
  | nil => simp [dictInsert, dictLookup, if_neg h]
  | cons kv rest ih =>
    obtain ⟨k0, v0⟩ := kv
    by_cases hk : k0 = k
    · subst hk
      simp only [dictInsert, if_pos rfl, dictLookup, if_neg h]
    · simp only [dictInsert, if_neg hk, dictLookup]
      by_cases hk' : k0 = k'
      · simp [hk']
      · simp only [if_neg hk']
        exact ih

lemma dictUpdate_lookup_notmem (b : ParamDict) (ov : ParamDict) (k : String)
    (h : ∀ kv ∈ ov, kv.1 ≠ k) : dictLookup (dictUpdate b ov) k = dictLookup b k := by
  induction ov generalizing b with
  | nil => rfl
  | cons kv rest ih =>
    have hstep : dictUpdate b (kv :: rest) = dictUpdate (dictInsert b kv.1 kv.2) rest := rfl
    rw [hstep, ih _ (fun x hx => h x (List.mem_cons_of_mem kv hx)),
      dictInsert_lookup_other _ _ _ _ (h kv (List.mem_cons_self kv rest))]

lemma dictUpdate_lookup_mem (b : ParamDict) (ov : ParamDict) (k : String) (v : ℚ)
    (hnd : (ov.map Prod.fst).Nodup) (hmem : (k, v) ∈ ov) :
    dictLookup (dictUpdate b ov) k = some v := by
  induction ov generalizing b with
  | nil => cases hmem
  | cons kv rest ih =>
    have hstep : dictUpdate b (kv :: rest) = dictUpdate (dictInsert b kv.1 kv.2) rest := rfl
    rcases List.mem_cons.mp hmem with heq | htail
    · subst heq
      rw [hstep, dictUpdate_lookup_notmem]
      · exact dictInsert_lookup_self b k v
      · intro x hx hxk
        have : x.1 ∈ rest.map Prod.fst := List.mem_map_of_mem Prod.fst hx
        rw [hxk] at this
        exact (List.nodup_cons.mp hnd).1 this
    · rw [hstep]
      exact ih _ (List.nodup_cons.mp hnd).2 htail

/-- Counterexample to C3: constructing an entity parameter set with the
unknown override key `"bogus"` does not fail — the source's `dict.update`
silently merges the unknown key into the parameter dictionary — whereas the
checked construction described by the specification rejects it with a
`ConfigurationError`.  The engine therefore does start with such a
configuration. -/
theorem claim_c3_counterexample :
    checkedEntityParamsInitSpec [("bogus", 1)] = Except.error "ConfigurationError" ∧
    dictLookup (entityParamsInit [("bogus", 1)]) "bogus" = some 1 ∧
    dictLookup (entityParamsInit [("bogus", 1)]) "max_age" = some 101 ∧
    dictLookup (envFactorsInit [("bogus", 1)]) "bogus" = some 1 :=
  ⟨rfl, rfl, rfl, rfl⟩

/-- C3 as amended: constructing an entity or an environment with an override
mapping never fails; every override binding — known or unknown — is merged
into the resulting dictionary verbatim (first-bound key wins the lookup, and
override keys absent from the mapping keep their default binding). -/
theorem claim_c3_amended_unknown_keys_accepted (ov : ParamDict) (k : String) (v : ℚ)
    (hnd : (ov.map Prod.fst).Nodup) (hmem : (k, v) ∈ ov) :
    dictLookup (entityParamsInit ov) k = some v ∧
    dictLookup (envFactorsInit ov) k = some v := by
  exact ⟨dictUpdate_lookup_mem _ ov k v hnd hmem, dictUpdate_lookup_mem _ ov k v hnd hmem⟩

theorem claim_c3_amended_witness :
    ((([("bogus", (1 : ℚ))] : ParamDict).map Prod.fst).Nodup ∧
      ("bogus", (1 : ℚ)) ∈ ([("bogus", (1 : ℚ))] : ParamDict)) ∧
    dictLookup (entityParamsInit [("bogus", 1)]) "bogus" = some 1 ∧
    dictLookup (envFactorsInit [("bogus", 1)]) "bogus" = some 1 :=
  ⟨⟨by simp, by simp⟩,
   claim_c3_amended_unknown_keys_accepted [("bogus", 1)] "bogus" 1 (by simp) (by simp)⟩

/-! ## Claim C2: the reproduction cost -/

unseal Rat.add Rat.mul Rat.inv Rat.sub in
/-- Counterexample to C2: a thriving entity of reproduction age whose
Bernoulli draw succeeds — so it reproduces (the returned population gains an
offspring) — yet its health after `_handle_reproduction` is still 80, not
the 77 that a reproduction cost of 3.0 would leave.  No line of
`_handle_reproduction` modifies the parent. -/
theorem claim_c2_counterexample :
    reproduces c2parent ((fun _ : ℕ => okReproDraws) 0).reproU = true ∧
    (handleReproduction defaultEnvFactors (fun _ => okReproDraws)
        (fun n => 100 + n) 5 0 [c2parent]).1.length = 2 ∧
    healthAtD (handleReproduction defaultEnvFactors (fun _ => okReproDraws)
        (fun n => 100 + n) 5 0 [c2parent]).1 0 = 80 ∧
    ((80 : ℚ) ≠ 80 - 3) := by
  exact ⟨by decide, by decide, by decide, by norm_num⟩

/-- C2 as amended: when an entity reproduces in an epoch, the reproduction
step leaves the parent entirely unchanged — no health cost of 3.0 (or any
other amount) is charged; every pre-existing position of the population is
returned verbatim, with offspring only appended after it. -/
theorem claim_c2_amended_no_parent_cost (env : EnvFactors) (draws : ℕ → ReproDraws)
    (u : ℕ → ℕ) (t uuidCtr : ℕ) (pop : List Entity) (n : ℕ) (hn : n < pop.length) :
    (handleReproduction env draws u t uuidCtr pop).1.get? n = pop.get? n := by
  unfold handleReproduction
  exact List.get?_append hn

theorem claim_c2_amended_witness :
    0 < [c2parent].length ∧
    (handleReproduction defaultEnvFactors (fun _ => okReproDraws)
        (fun n => 100 + n) 5 0 [c2parent]).1.get? 0 = [c2parent].get? 0 :=
  ⟨by decide,
   claim_c2_amended_no_parent_cost defaultEnvFactors (fun _ => okReproDraws)
     (fun n => 100 + n) 5 0 [c2parent] 0 (by decide)⟩

/-! ## Interaction-pass lemmas (claims C8 and C10) -/

lemma handleInteractions_eq (env : EnvFactors) (sample : ℕ → List ℕ → ℕ → List ℕ)
    (pop : List Entity) :
    handleInteractions env sample pop =
      if (aliveIndices pop).length < 2 then pop
      else attackerRounds env (interactionModifier env (aliveIndices pop).length)
        (aliveIndices pop) pop (min ((aliveIndices pop).length - 1) 3) sample
        (aliveIndices pop) 0 pop := rfl

lemma aliveIndices_cons (x : Entity) (xs : List Entity) :
    aliveIndices (x :: xs) =
      (if x.isAlive then [0] else []) ++ (aliveIndices xs).map Nat.succ := by
  unfold aliveIndices
  rw [List.length_cons, List.range_succ_eq_map, List.filter_cons, List.filter_map]
  have hpred : ((fun i => isAliveAtD (x :: xs) i) ∘ Nat.succ) = fun i => isAliveAtD xs i := rfl
  rw [hpred]
  by_cases h : x.isAlive <;> simp [h, isAliveAtD]

lemma aliveIndices_length (pop : List Entity) :
    (aliveIndices pop).length = countAlive pop := by
  induction pop with
  | nil => rfl
  | cons x xs ih =>
    rw [aliveIndices_cons]
    unfold countAlive
    rw [List.filter_cons]
    by_cases h : x.isAlive <;> simp [h, countAlive] at ih ⊢ <;> exact ih

lemma min_max_clamp (lo hi x : ℚ) (h : lo ≤ hi) :
    min hi (max lo x) = max lo (min hi x) := by
  rcases le_total x lo with h1 | h1 <;> rcases le_total x hi with h2 | h2 <;>
    rw [min_def, min_def, max_def, max_def] <;> split_ifs <;> first | rfl | linarith

/-- Shared characterisation of one interaction pair: the target loses the
attacker's damage from health and half of it from energy, both floored at 0,
and symmetrically for the attacker, regardless of the current health values
(in particular at health 0). -/
lemma interactionStep_get? (env : EnvFactors) (m : ℚ) (pop : List Entity) (i j : ℕ)
    (e1 e2 : Entity) (hi : pop.get? i = some e1) (hj : pop.get? j = some e2)
    (hij : i ≠ j) (h1 : e1.isAlive) (h2 : e2.isAlive) :
    (interactionStep env m pop i j).get? j = some
      { e2 with
        health := max 0 (e2.health - e1.params.aggression * env.interaction_strength * m),
        energy := max 0 (e2.energy - e1.params.aggression * env.interaction_strength * m / 2) } ∧
    (interactionStep env m pop i j).get? i = some
      { e1 with
        health := max 0 (e1.health - e2.params.aggression * env.interaction_strength * m),
        energy := max 0 (e1.energy - e2.params.aggression * env.interaction_strength * m / 2) } := by
  unfold interactionStep
  rw [hi, hj]
  simp only [h1, h2, and_self, if_true]
  constructor
  · rw [modifyAt_get?, if_neg hij, modifyAt_get?, if_pos rfl, hj]
    rfl
  · rw [modifyAt_get?, if_pos rfl, modifyAt_get?, if_neg (Ne.symm hij), hi]
    rfl

lemma statusAtD_modifyAt (pop : List Entity) (i k : ℕ) (f : Entity → Entity)
    (hf : ∀ e, (f e).status = e.status) :
    statusAtD (modifyAt pop i f) k = statusAtD pop k := by
  unfold statusAtD
  rw [modifyAt_get?]
  split_ifs with h
  · cases hg : pop.get? k <;> simp [hf]
  · rfl

lemma statusAtD_interactionStep (env : EnvFactors) (m : ℚ) (pop : List Entity)
    (i j k : ℕ) :
    statusAtD (interactionStep env m pop i j) k = statusAtD pop k := by
  unfold interactionStep
  split
  · split_ifs with h
    · dsimp only
      rw [statusAtD_modifyAt, statusAtD_modifyAt]
      · exact fun e => rfl
      · exact fun e => rfl
    · rfl
  · rfl

lemma statusAtD_targetsFold (env : EnvFactors) (m : ℚ) (i : ℕ) (l : List ℕ)
    (pop : List Entity) (k : ℕ) :
    statusAtD (targetsFold env m i l pop) k = statusAtD pop k := by
  induction l generalizing pop with
  | nil => rfl
  | cons j rest ih => rw [targetsFold, ih, statusAtD_interactionStep]

lemma statusAtD_attackerRounds (env : EnvFactors) (m : ℚ) (alivePos : List ℕ)
    (pop0 : List Entity) (numInteractions : ℕ) (sample : ℕ → List ℕ → ℕ → List ℕ)
    (attackers : List ℕ) (k0 : ℕ) (pop : List Entity) (k : ℕ) :
    statusAtD (attackerRounds env m alivePos pop0 numInteractions sample attackers k0 pop) k =
      statusAtD pop k := by
  induction attackers generalizing k0 pop with
  | nil => rfl
  | cons i rest ih =>
    rw [attackerRounds, ih]
    split_ifs
    · rfl
    · rw [statusAtD_targetsFold]

lemma statusAtD_handleInteractions (env : EnvFactors) (sample : ℕ → List ℕ → ℕ → List ℕ)
    (pop : List Entity) (k : ℕ) :
    statusAtD (handleInteractions env sample pop) k = statusAtD pop k := by
  rw [handleInteractions_eq]
  split_ifs
  · rfl
  · rw [statusAtD_attackerRounds]

/-! ## Claim C8: interaction resolution -/

/-- C8: interaction resolution is skipped entirely below two live entities;
the interaction modifier is `clamp(0.1, 1.0, (1 − resource_availability) +
live_count/100)`; and each applied pair of mutually alive entities damages
the target by `attacker_aggression × interaction_strength × modifier` on
health and half that on energy, clamped at 0 immediately, with the mirror
computation applied to the attacker. -/
theorem claim_c8_interaction_resolution (env : EnvFactors)
    (sample : ℕ → List ℕ → ℕ → List ℕ) (pop : List Entity) (m : ℚ) (i j : ℕ)
    (e1 e2 : Entity) :
    (countAlive pop < 2 → handleInteractions env sample pop = pop) ∧
    (interactionModifier env (countAlive pop) =
      clampQ (1/10) 1 ((1 - env.resource_availability) + (countAlive pop : ℚ) / 100)) ∧
    (pop.get? i = some e1 → pop.get? j = some e2 → i ≠ j →
      e1.isAlive → e2.isAlive →
      (interactionStep env m pop i j).get? j = some
        { e2 with
          health := max 0 (e2.health - e1.params.aggression * env.interaction_strength * m),
          energy :=
            max 0 (e2.energy - e1.params.aggression * env.interaction_strength * m / 2) } ∧
      (interactionStep env m pop i j).get? i = some
        { e1 with
          health := max 0 (e1.health - e2.params.aggression * env.interaction_strength * m),
          energy :=
            max 0 (e1.energy - e2.params.aggression * env.interaction_strength * m / 2) }) := by
  refine ⟨?_, ?_, ?_⟩
  · intro h
    rw [handleInteractions_eq, if_pos (by rw [aliveIndices_length]; exact h)]
  · unfold interactionModifier clampQ
    exact min_max_clamp (1/10) 1 _ (by norm_num)
  · intro hi hj hij h1 h2
    exact interactionStep_get? env m pop i j e1 e2 hi hj hij h1 h2

unseal Rat.add Rat.mul Rat.inv Rat.sub in
/-- Witness for C8: a singleton population is left untouched, the modifier
equals the clamp formula, and a concrete mutually-alive pair exchanges the
stated damage. -/
theorem claim_c8_witness :
    (countAlive [plainEntity 1 Status.alive] < 2 ∧
      handleInteractions defaultEnvFactors (fun _ pool k => pool.take k)
        [plainEntity 1 Status.alive] = [plainEntity 1 Status.alive]) ∧
    interactionModifier defaultEnvFactors (countAlive [plainEntity 1 Status.alive]) =
      clampQ (1/10) 1 ((1 - defaultEnvFactors.resource_availability) +
        (countAlive [plainEntity 1 Status.alive] : ℚ) / 100) ∧
    (interactionStep defaultEnvFactors (1/2)
        [plainEntity 1 Status.alive, plainEntity 2 Status.struggling] 0 1).get? 1 = some
      { plainEntity 2 Status.struggling with
        health := max 0 ((plainEntity 2 Status.struggling).health -
          (plainEntity 1 Status.alive).params.aggression *
            defaultEnvFactors.interaction_strength * (1/2)),
        energy := max 0 ((plainEntity 2 Status.struggling).energy -
          (plainEntity 1 Status.alive).params.aggression *
            defaultEnvFactors.interaction_strength * (1/2) / 2) } :=
  ⟨⟨by decide,
    (claim_c8_interaction_resolution defaultEnvFactors (fun _ pool k => pool.take k)
      [plainEntity 1 Status.alive] 0 0 0 (plainEntity 1 Status.alive)
      (plainEntity 1 Status.alive)).1 (by decide)⟩,
   (claim_c8_interaction_resolution defaultEnvFactors (fun _ pool k => pool.take k)
      [plainEntity 1 Status.alive] 0 0 0 (plainEntity 1 Status.alive)
      (plainEntity 1 Status.alive)).2.1,
   ((claim_c8_interaction_resolution defaultEnvFactors (fun _ pool k => pool.take k)
      [plainEntity 1 Status.alive, plainEntity 2 Status.struggling] (1/2) 0 1
      (plainEntity 1 Status.alive) (plainEntity 2 Status.struggling)).2.2
      (by decide) (by decide) (by decide) (by decide) (by decide)).1⟩

/-! ## Claim C10: damage at zero health within one pass -/

/-- C10: within one epoch's interaction pass, statuses are never
reclassified — the pass preserves every entity's status field, so the
in-loop aliveness check (which reads the status) keeps succeeding for every
entity that was alive when the pass began — and a pair whose attacker's
health has already been reduced to 0 still deals and receives the full
damage formula. -/
theorem claim_c10_zero_health_still_fights (env : EnvFactors)
    (sample : ℕ → List ℕ → ℕ → List ℕ) (pop : List Entity) (m : ℚ)
    (k i j i' : ℕ) (l : List ℕ) (e1 e2 : Entity) :
    (statusAtD (handleInteractions env sample pop) k = statusAtD pop k) ∧
    (statusAtD pop k ≠ Status.dead →
      statusAtD (targetsFold env m i' l pop) k ≠ Status.dead) ∧
    (pop.get? i = some e1 → pop.get? j = some e2 → i ≠ j →
      e1.isAlive → e2.isAlive → e1.health = 0 →
      (interactionStep env m pop i j).get? j = some
        { e2 with
          health := max 0 (e2.health - e1.params.aggression * env.interaction_strength * m),
          energy :=
            max 0 (e2.energy - e1.params.aggression * env.interaction_strength * m / 2) } ∧
      (interactionStep env m pop i j).get? i = some
        { e1 with
          health := max 0 (0 - e2.params.aggression * env.interaction_strength * m),
          energy :=
            max 0 (e1.energy - e2.params.aggression * env.interaction_strength * m / 2) }) := by
  refine ⟨statusAtD_handleInteractions env sample pop k, ?_, ?_⟩
  · intro h
    rw [statusAtD_targetsFold]
    exact h
  · intro hi hj hij h1 h2 hz
    have h := interactionStep_get? env m pop i j e1 e2 hi hj hij h1 h2
    rw [hz] at h
    exact h

unseal Rat.add Rat.mul Rat.inv Rat.sub in
/-- Witness for C10: the concrete zero-health attacker still deals its full
aggression damage to its partner, statuses are untouched by the whole pass,
and the attacker stays non-dead through a fold prefix. -/
theorem claim_c10_witness :
    (statusAtD (handleInteractions defaultEnvFactors (fun _ pool k => pool.take k)
        zeroHealthPop) 0 = statusAtD zeroHealthPop 0) ∧
    statusAtD (targetsFold defaultEnvFactors (1/2) 0 [1] zeroHealthPop) 0 ≠ Status.dead ∧
    (interactionStep defaultEnvFactors (1/2) zeroHealthPop 0 1).get? 1 = some
      { plainEntity 2 Status.alive with
        health := max 0 ((plainEntity 2 Status.alive).health -
          zeroHealthAttacker.params.aggression *
            defaultEnvFactors.interaction_strength * (1/2)),
        energy := max 0 ((plainEntity 2 Status.alive).energy -
          zeroHealthAttacker.params.aggression *
            defaultEnvFactors.interaction_strength * (1/2) / 2) } :=
  ⟨(claim_c10_zero_health_still_fights defaultEnvFactors (fun _ pool k => pool.take k)
      zeroHealthPop (1/2) 0 0 1 0 [1] zeroHealthAttacker (plainEntity 2 Status.alive)).1,
   (claim_c10_zero_health_still_fights defaultEnvFactors (fun _ pool k => pool.take k)
      zeroHealthPop (1/2) 0 0 1 0 [1] zeroHealthAttacker (plainEntity 2 Status.alive)).2.1
      (by decide),
   ((claim_c10_zero_health_still_fights defaultEnvFactors (fun _ pool k => pool.take k)
      zeroHealthPop (1/2) 0 0 1 0 [1] zeroHealthAttacker (plainEntity 2 Status.alive)).2.2
      (by decide) (by decide) (by decide) (by decide) (by decide) (by decide)).1⟩

/-! ## Predator-culling lemmas (claim C4) -/

lemma predatorStep_eq (sample : List ℕ → ℕ → List ℕ) (env : EnvFactors) (t : ℕ)
    (pop : List Entity) :
    predatorStep sample env t pop =
      if (countAlive pop : ℚ) > env.predator_threshold then
        predatorKillAll t
          (if predNumToRemove env (countAlive pop) ≤ (strugglingIndices pop).length
            then sample (strugglingIndices pop) (predNumToRemove env (countAlive pop))
            else sample (aliveIndices pop)
              (min (predNumToRemove env (countAlive pop)) (countAlive pop)))
          pop
      else (pop, []) := rfl

lemma countAlive_cons (x : Entity) (xs : List Entity) :
    countAlive (x :: xs) = (if x.isAlive then 1 else 0) + countAlive xs := by
  unfold countAlive
  rw [List.filter_cons]
  by_cases h : x.isAlive <;> simp [h, Nat.add_comm]

lemma predatorKill_spec (e : Entity) :
    (predatorKill e).status = Status.dead ∧ (predatorKill e).health = 0 ∧
      (predatorKill e).energy = 0 := by
  unfold predatorKill updateStatus
  rw [if_pos (Or.inl le_rfl)]
  exact ⟨rfl, rfl, rfl⟩

lemma predatorKill_not_alive (e : Entity) : (predatorKill e).isAlive = false := by
  have h := (predatorKill_spec e).1
  unfold Entity.isAlive
  rw [h]
  simp

lemma countAlive_pos_of_alive (pop : List Entity) (j : ℕ)
    (hj : isAliveAtD pop j = true) : 1 ≤ countAlive pop := by
  induction pop generalizing j with
  | nil => simp [isAliveAtD] at hj
  | cons x xs ih =>
    rw [countAlive_cons]
    cases j with
    | zero =>
      have : x.isAlive = true := hj
      simp [this]
    | succ n =>
      have := ih n hj
      omega

lemma isAliveAtD_modifyAt_other (pop : List Entity) (i j : ℕ) (f : Entity → Entity)
    (h : j ≠ i) : isAliveAtD (modifyAt pop j f) i = isAliveAtD pop i := by
  unfold isAliveAtD
  rw [modifyAt_get?, if_neg h]

lemma countAlive_modifyAt_kill (pop : List Entity) (j : ℕ) (f : Entity → Entity)
    (hj : isAliveAtD pop j = true) (hf : ∀ e, (f e).isAlive = false) :
    countAlive (modifyAt pop j f) = countAlive pop - 1 := by
  induction pop generalizing j with
  | nil => simp [isAliveAtD] at hj
  | cons x xs ih =>
    cases j with
    | zero =>
      have hx : x.isAlive = true := hj
      show countAlive (f x :: xs) = countAlive (x :: xs) - 1
      rw [countAlive_cons, countAlive_cons, hf, hx]
      simp
    | succ n =>
      have hx : isAliveAtD xs n = true := hj
      show countAlive (x :: modifyAt xs n f) = countAlive (x :: xs) - 1
      rw [countAlive_cons, countAlive_cons, ih n hx]
      have := countAlive_pos_of_alive xs n hx
      by_cases h : x.isAlive <;> simp [h] <;> omega

lemma predatorKillAll_fst (t : ℕ) (j : ℕ) (rest : List ℕ) (pop : List Entity) :
    (predatorKillAll t (j :: rest) pop).1 =
      (predatorKillAll t rest (modifyAt pop j predatorKill)).1 := rfl

lemma predatorKillAll_get?_notmem (t : ℕ) (ts : List ℕ) (pop : List Entity) (i : ℕ)
    (h : i ∉ ts) : (predatorKillAll t ts pop).1.get? i = pop.get? i := by
  induction ts generalizing pop with
  | nil => rfl
  | cons j rest ih =>
    rw [predatorKillAll_fst, ih _ (fun hm => h (List.mem_cons_of_mem j hm)),
      modifyAt_get?, if_neg (by intro hji; subst hji; exact h (List.mem_cons_self j rest))]

lemma predatorKillAll_get?_mem (t : ℕ) (ts : List ℕ) (pop : List Entity) (i : ℕ)
    (h : i ∈ ts) :
    ((predatorKillAll t ts pop).1.get? i).map (fun e => (e.status, e.health, e.energy)) =
      (pop.get? i).map (fun _ => (Status.dead, (0 : ℚ), (0 : ℚ))) := by
  induction ts generalizing pop with
  | nil => cases h
  | cons j rest ih =>
    rw [predatorKillAll_fst]
    by_cases hr : i ∈ rest
    · rw [ih _ hr, modifyAt_get?]
      split_ifs with hj
      · rw [Option.map_map]
        rfl
      · rfl
    · have hij : i = j := by
        rcases List.mem_cons.mp h with h' | h'
        · exact h'
        · exact absurd h' hr
      subst hij
      rw [predatorKillAll_get?_notmem _ _ _ _ hr, modifyAt_get?, if_pos rfl,
        Option.map_map]
      have hfn : ((fun e : Entity => (e.status, e.health, e.energy)) ∘ predatorKill) =
          fun _ : Entity => (Status.dead, (0 : ℚ), (0 : ℚ)) := by
        funext e
        have h1 := (predatorKill_spec e).1
        have h2 := (predatorKill_spec e).2.1
        have h3 := (predatorKill_spec e).2.2
        simp [Function.comp, h1, h2, h3]
      rw [hfn]

lemma predatorKillAll_countAlive (t : ℕ) (ts : List ℕ) (pop : List Entity)
    (hnd : ts.Nodup) (hall : ∀ i ∈ ts, isAliveAtD pop i = true) :
    countAlive (predatorKillAll t ts pop).1 = countAlive pop - ts.length := by
  induction ts generalizing pop with
  | nil => rfl
  | cons j rest ih =>
    rw [predatorKillAll_fst]
    have hjal : isAliveAtD pop j = true := hall j (List.mem_cons_self j rest)
    have hnd' := (List.nodup_cons.mp hnd).2
    have hjr := (List.nodup_cons.mp hnd).1
    rw [ih (modifyAt pop j predatorKill) hnd'
        (fun i hi => by
          rw [isAliveAtD_modifyAt_other _ _ _ _ (by intro hji; subst hji; exact hjr hi)]
          exact hall i (List.mem_cons_of_mem j hi)),
      countAlive_modifyAt_kill pop j predatorKill hjal predatorKill_not_alive]
    have := countAlive_pos_of_alive pop j hjal
    simp only [List.length_cons]
    omega

lemma mem_aliveIndices (pop : List Entity) (i : ℕ) :
    i ∈ aliveIndices pop ↔ i < pop.length ∧ isAliveAtD pop i = true := by
  simp [aliveIndices, List.mem_filter, List.mem_range]

lemma mem_strugglingIndices (pop : List Entity) (i : ℕ) :
    i ∈ strugglingIndices pop ↔
      i < pop.length ∧ statusAtD pop i = Status.struggling ∧ isAliveAtD pop i = true := by
  simp [strugglingIndices, List.mem_filter, List.mem_range]

lemma predNumToRemove_le (env : EnvFactors) (a : ℕ) (h1 : 1 ≤ a)
    (hp0 : 0 ≤ env.predator_impact_percentage) (hp1 : env.predator_impact_percentage ≤ 1) :
    predNumToRemove env a ≤ a := by
  unfold predNumToRemove pyTrunc
  have hnn : (0 : ℚ) ≤ (a : ℚ) * env.predator_impact_percentage :=
    mul_nonneg (by positivity) hp0
  rw [if_neg (not_lt.mpr hnn)]
  have hle : (a : ℚ) * env.predator_impact_percentage ≤ (a : ℚ) :=
    mul_le_of_le_one_right (by positivity) hp1
  have hfl : Int.floor ((a : ℚ) * env.predator_impact_percentage) ≤ (a : ℤ) := by
    have := Int.floor_le_floor hle
    rwa [Int.floor_natCast] at this
  rw [Int.toNat_le]
  exact max_le (by exact_mod_cast h1) hfl

lemma predatorKillAll_killed (t : ℕ) (ts : List ℕ) (pop : List Entity) (i : ℕ)
    (hal : isAliveAtD pop i = true)
    (hdead : isAliveAtD (predatorKillAll t ts pop).1 i = false) :
    i ∈ ts ∧ statusAtD (predatorKillAll t ts pop).1 i = Status.dead ∧
      healthAtD (predatorKillAll t ts pop).1 i = 0 ∧
      energyAtD (predatorKillAll t ts pop).1 i = 0 := by
  by_cases hm : i ∈ ts
  · have htriple := predatorKillAll_get?_mem t ts pop i hm
    cases hp : pop.get? i with
    | none =>
      rw [isAliveAtD, hp] at hal
      simp at hal
    | some e =>
      rw [hp] at htriple
      cases hres : (predatorKillAll t ts pop).1.get? i with
      | none =>
        rw [hres] at htriple
        simp at htriple
      | some e' =>
        rw [hres] at htriple
        simp only [Option.map_some', Option.some.injEq, Prod.mk.injEq] at htriple
        exact ⟨hm, by rw [statusAtD, hres]; exact htriple.1,
          by rw [healthAtD, hres]; exact htriple.2.1,
          by rw [energyAtD, hres]; exact htriple.2.2⟩
  · exfalso
    have hsame := predatorKillAll_get?_notmem t ts pop i hm
    rw [isAliveAtD, hsame] at hdead
    rw [isAliveAtD] at hal
    rw [hal] at hdead
    cases hdead

/-! ## Claim C4: the predator-culling policy -/

/-- C4 as amended: when the live count exceeds `predator_threshold` (with the
impact percentage in `[0, 1]` and a nonnegative threshold, as all documented
configurations satisfy, and the sampler behaving as `random.sample`, i.e.
returning a without-replacement sample of the requested size from its pool),
exactly `max(1, floor(live_count * predator_impact_percentage))` live
entities are killed instantly — health and energy 0 and status `dead` — and
when at least that many struggling entities exist, every removed entity was
struggling.  When fewer struggling entities exist than the removal count,
the entire removal set is drawn as a uniform sample from all live entities;
the struggling entities receive no preference at all in that case (the
remainder is not "filled up" around them — see the counterexample). -/
theorem claim_c4_predator_culling (sample : List ℕ → ℕ → List ℕ) (env : EnvFactors)
    (t : ℕ) (pop : List Entity)
    (HsS : predNumToRemove env (countAlive pop) ≤ (strugglingIndices pop).length →
      (sample (strugglingIndices pop) (predNumToRemove env (countAlive pop))).Nodup ∧
      (sample (strugglingIndices pop) (predNumToRemove env (countAlive pop))).length =
        predNumToRemove env (countAlive pop) ∧
      ∀ x ∈ sample (strugglingIndices pop) (predNumToRemove env (countAlive pop)),
        x ∈ strugglingIndices pop)
    (HsA :
      (sample (aliveIndices pop)
        (min (predNumToRemove env (countAlive pop)) (countAlive pop))).Nodup ∧
      (sample (aliveIndices pop)
        (min (predNumToRemove env (countAlive pop)) (countAlive pop))).length =
        min (predNumToRemove env (countAlive pop)) (countAlive pop) ∧
      ∀ x ∈ sample (aliveIndices pop)
        (min (predNumToRemove env (countAlive pop)) (countAlive pop)),
        x ∈ aliveIndices pop)
    (hp0 : 0 ≤ env.predator_impact_percentage)
    (hp1 : env.predator_impact_percentage ≤ 1)
    (hthr : 0 ≤ env.predator_threshold)
    (htrig : (countAlive pop : ℚ) > env.predator_threshold) :
    countAlive (predatorStep sample env t pop).1 =
      countAlive pop - predNumToRemove env (countAlive pop) ∧
    (∀ i, isAliveAtD pop i = true →
      isAliveAtD (predatorStep sample env t pop).1 i = false →
      statusAtD (predatorStep sample env t pop).1 i = Status.dead ∧
      healthAtD (predatorStep sample env t pop).1 i = 0 ∧
      energyAtD (predatorStep sample env t pop).1 i = 0) ∧
    (predNumToRemove env (countAlive pop) ≤ (strugglingIndices pop).length →
      ∀ i, isAliveAtD pop i = true →
        isAliveAtD (predatorStep sample env t pop).1 i = false →
        statusAtD pop i = Status.struggling) := by
  have hapos : (0 : ℚ) < (countAlive pop : ℚ) := lt_of_le_of_lt hthr htrig
  have h1a : 1 ≤ countAlive pop := by
    have : 0 < countAlive pop := by exact_mod_cast hapos
    omega
  have hnle : predNumToRemove env (countAlive pop) ≤ countAlive pop :=
    predNumToRemove_le env (countAlive pop) h1a hp0 hp1
  rw [predatorStep_eq, if_pos htrig]
  split_ifs with hbr
  · obtain ⟨hnd, hlen, hsub⟩ := HsS hbr
    have hall : ∀ i ∈ sample (strugglingIndices pop)
        (predNumToRemove env (countAlive pop)), isAliveAtD pop i = true :=
      fun i hi => ((mem_strugglingIndices pop i).mp (hsub i hi)).2.2
    refine ⟨?_, ?_, ?_⟩
    · rw [predatorKillAll_countAlive _ _ _ hnd hall, hlen]
    · intro i hal hdead
      exact (predatorKillAll_killed _ _ _ _ hal hdead).2
    · intro _ i hal hdead
      have hm := (predatorKillAll_killed _ _ _ _ hal hdead).1
      exact ((mem_strugglingIndices pop i).mp (hsub i hm)).2.1
  · obtain ⟨hnd, hlen, hsub⟩ := HsA
    have hall : ∀ i ∈ sample (aliveIndices pop)
        (min (predNumToRemove env (countAlive pop)) (countAlive pop)),
        isAliveAtD pop i = true :=
      fun i hi => ((mem_aliveIndices pop i).mp (hsub i hi)).2
    refine ⟨?_, ?_, ?_⟩
    · rw [predatorKillAll_countAlive _ _ _ hnd hall, hlen,
        min_eq_left hnle]
    · intro i hal hdead
      exact (predatorKillAll_killed _ _ _ _ hal hdead).2
    · intro hbr'
      exact absurd hbr' hbr

unseal Rat.add Rat.mul Rat.inv Rat.sub in
/-- Witness for C4 as amended: the four-entity population above the threshold
loses exactly `max(1, floor(4 × 0.5))` = 2 live entities, and a removed
entity (position 0) is dead with both vitals zero. -/
theorem claim_c4_witness :
    (countAlive cullPop : ℚ) > cullEnv.predator_threshold ∧
    countAlive (predatorStep cullSampler cullEnv 0 cullPop).1 =
      countAlive cullPop - predNumToRemove cullEnv (countAlive cullPop) ∧
    (statusAtD (predatorStep cullSampler cullEnv 0 cullPop).1 0 = Status.dead ∧
      healthAtD (predatorStep cullSampler cullEnv 0 cullPop).1 0 = 0 ∧
      energyAtD (predatorStep cullSampler cullEnv 0 cullPop).1 0 = 0) :=
  ⟨by decide,
   (claim_c4_predator_culling cullSampler cullEnv 0 cullPop (by decide) (by decide)
     (by decide) (by decide) (by decide) (by decide)).1,
   (claim_c4_predator_culling cullSampler cullEnv 0 cullPop (by decide) (by decide)
     (by decide) (by decide) (by decide) (by decide)).2.1 0 (by decide) (by decide)⟩

unseal Rat.add Rat.mul Rat.inv Rat.sub in
/-- Counterexample to C4 as stated: four live entities above the threshold,
removal count 2, but only one struggling entity (position 1).  The sampler
draws `[0, 2]` — a legitimate without-replacement sample of size 2 from the
live pool — so exactly two entities die, yet the struggling entity survives
untouched.  The claim's "preferring struggling entities and filling the
remainder from all live entities" would have required the lone struggling
entity to be among the removed. -/
theorem claim_c4_counterexample :
    countAlive cullPop = 4 ∧
    strugglingIndices cullPop = [1] ∧
    predNumToRemove cullEnv (countAlive cullPop) = 2 ∧
    cullSampler (aliveIndices cullPop)
        (min (predNumToRemove cullEnv (countAlive cullPop)) (countAlive cullPop)) = [0, 2] ∧
    ((cullSampler (aliveIndices cullPop) 2).Nodup ∧
      (cullSampler (aliveIndices cullPop) 2).length = 2 ∧
      ∀ x ∈ cullSampler (aliveIndices cullPop) 2, x ∈ aliveIndices cullPop) ∧
    countAlive (predatorStep cullSampler cullEnv 0 cullPop).1 = 2 ∧
    statusAtD (predatorStep cullSampler cullEnv 0 cullPop).1 1 = Status.struggling ∧
    isAliveAtD (predatorStep cullSampler cullEnv 0 cullPop).1 1 = true := by
  exact ⟨by decide, by decide, by decide, by decide, by decide, by decide, by decide, by decide⟩

/-! ## Epoch-invariant lemmas (claim C1) -/

lemma mem_modifyAt (l : List Entity) (i : ℕ) (f : Entity → Entity) (e' : Entity)
    (h : e' ∈ modifyAt l i f) : e' ∈ l ∨ ∃ e ∈ l, e' = f e := by
  induction l generalizing i with
  | nil => cases h
  | cons x xs ih =>
    cases i with
    | zero =>
      rcases List.mem_cons.mp h with h' | h'
      · exact Or.inr ⟨x, List.mem_cons_self x xs, h'⟩
      · exact Or.inl (List.mem_cons_of_mem x h')
    | succ n =>
      rcases List.mem_cons.mp h with h' | h'
      · exact Or.inl (h' ▸ List.mem_cons_self x xs)
      · rcases ih n h' with h'' | ⟨e, he, hee⟩
        · exact Or.inl (List.mem_cons_of_mem x h'')
        · exact Or.inr ⟨e, List.mem_cons_of_mem x he, hee⟩

lemma modifyAt_invariant (P : Entity → Prop) (l : List Entity) (i : ℕ)
    (f : Entity → Entity) (hP : ∀ e ∈ l, P e) (hf : ∀ e, P e → P (f e)) :
    ∀ e' ∈ modifyAt l i f, P e' := by
  intro e' h
  rcases mem_modifyAt l i f e' h with h' | ⟨e, he, hee⟩
  · exact hP e' h'
  · exact hee ▸ hf e (hP e he)

lemma clamp100_bounds (x : ℚ) : 0 ≤ max 0 (min 100 x) ∧ max 0 (min 100 x) ≤ 100 :=
  ⟨le_max_left 0 _, max_le (by norm_num) (min_le_left 100 x)⟩

lemma damage_floor_bounds (h d : ℚ) (hh0 : 0 ≤ h) (hh1 : h ≤ 100) (hd : 0 ≤ d) :
    0 ≤ max 0 (h - d) ∧ max 0 (h - d) ≤ 100 :=
  ⟨le_max_left 0 _, max_le (by norm_num) (by linarith)⟩

lemma updateStatus_vitals (e : Entity) :
    ((updateStatus e).health = 0 ∧ (updateStatus e).energy = 0) ∨
      ((updateStatus e).health = e.health ∧ (updateStatus e).energy = e.energy) := by
  unfold updateStatus
  split_ifs <;> simp

lemma updateStatus_params (e : Entity) : (updateStatus e).params = e.params := by
  unfold updateStatus
  split_ifs <;> rfl

lemma updateStatus_bounded (e : Entity) (h : vitalsBounded e) :
    vitalsBounded (updateStatus e) := by
  rcases updateStatus_vitals e with ⟨h1, h2⟩ | ⟨h1, h2⟩
  · exact ⟨by rw [h1], by rw [h1]; norm_num, by rw [h2], by rw [h2]; norm_num⟩
  · exact ⟨by rw [h1]; exact h.1, by rw [h1]; exact h.2.1,
      by rw [h2]; exact h.2.2.1, by rw [h2]; exact h.2.2.2⟩

lemma processEntity_bounded (env : EnvFactors) (e : Entity)
    (hd : e.isAlive = false → vitalsBounded e) :
    vitalsBounded (processEntity env e) := by
  unfold processEntity
  by_cases ha : e.isAlive = true
  · rw [if_neg (not_not_intro ha)]
    apply updateStatus_bounded
    exact ⟨(clamp100_bounds _).1, (clamp100_bounds _).2,
      (clamp100_bounds _).1, (clamp100_bounds _).2⟩
  · rw [if_pos (by simpa using ha)]
    exact hd (by simpa using ha)

lemma processEntity_params (env : EnvFactors) (e : Entity) :
    (processEntity env e).params = e.params := by
  unfold processEntity
  by_cases ha : e.isAlive = true
  · rw [if_neg (not_not_intro ha)]
    dsimp only
    rw [updateStatus_params]
  · rw [if_pos (by simpa using ha)]

lemma processEntity_dead_eq (env : EnvFactors) (e : Entity) (h : e.isAlive = false) :
    processEntity env e = e := by
  unfold processEntity
  rw [if_pos (by simp [h])]

lemma applyDisease_invariant (P : Entity → Prop) (dmg : ℕ → ℚ) (ts : List ℕ) (n : ℕ)
    (pop : List Entity) (hP : ∀ e ∈ pop, P e)
    (hf : ∀ k e, P e →
      P (if e.isAlive then { e with health := max 0 (e.health - dmg k) } else e)) :
    ∀ e' ∈ applyDisease dmg ts n pop, P e' := by
  induction ts generalizing n pop with
  | nil => exact hP
  | cons i rest ih =>
    exact ih (n + 1) _ (modifyAt_invariant P pop i _ hP (hf n))

lemma predatorKillAll_invariant (P : Entity → Prop) (t : ℕ) (ts : List ℕ)
    (pop : List Entity) (hP : ∀ e ∈ pop, P e) (hkill : ∀ e, P e → P (predatorKill e)) :
    ∀ e' ∈ (predatorKillAll t ts pop).1, P e' := by
  induction ts generalizing pop with
  | nil => exact hP
  | cons j rest ih =>
    rw [predatorKillAll_fst]
    exact ih _ (modifyAt_invariant P pop j predatorKill hP hkill)

lemma predatorStep_invariant (P : Entity → Prop) (sample : List ℕ → ℕ → List ℕ)
    (env : EnvFactors) (t : ℕ) (pop : List Entity) (hP : ∀ e ∈ pop, P e)
    (hkill : ∀ e, P e → P (predatorKill e)) :
    ∀ e' ∈ (predatorStep sample env t pop).1, P e' := by
  rw [predatorStep_eq]
  split_ifs with h1 h2
  · exact predatorKillAll_invariant P t _ pop hP hkill
  · exact predatorKillAll_invariant P t _ pop hP hkill
  · exact hP

lemma applyEnvEvent_invariant (P : Entity → Prop) (o : EpochOracle) (env : EnvFactors)
    (pop : List Entity) (hP : ∀ e ∈ pop, P e)
    (hf : ∀ k e, P e →
      P (if e.isAlive then { e with health := max 0 (e.health - o.diseaseDmg k) } else e)) :
    ∀ e' ∈ (applyEnvEvent o env pop).2, P e' := by
  unfold applyEnvEvent
  split_ifs with h
  · rcases hc : o.eventChoice % 3 with _ | n
    · exact hP
    · rcases n with _ | m
      · exact applyDisease_invariant P o.diseaseDmg _ 0 pop hP hf
      · exact hP
  · exact hP

lemma applyEnvEvent_strength (o : EpochOracle) (env : EnvFactors) (pop : List Entity) :
    (applyEnvEvent o env pop).1.interaction_strength = env.interaction_strength := by
  unfold applyEnvEvent
  split_ifs with h
  · rcases hc : o.eventChoice % 3 with _ | n
    · rfl
    · rcases n with _ | m <;> rfl
  · rfl

lemma driftEnv_strength (env : EnvFactors) (t total : ℕ) :
    (driftEnv env t total).interaction_strength = env.interaction_strength := rfl

lemma interactionModifier_nonneg (env : EnvFactors) (n : ℕ) :
    0 ≤ interactionModifier env n := by
  unfold interactionModifier
  exact le_min (by norm_num)
    (le_trans (by norm_num) (le_max_left (1/10) _))

lemma interactionStep_invariant (env : EnvFactors) (m : ℚ) (pop : List Entity)
    (i j : ℕ) (hm : 0 ≤ m) (hs : 0 ≤ env.interaction_strength)
    (hP : ∀ e ∈ pop, vitalsBounded e ∧ 0 ≤ e.params.aggression) :
    ∀ e' ∈ interactionStep env m pop i j, vitalsBounded e' ∧ 0 ≤ e'.params.aggression := by
  unfold interactionStep
  split
  case h_1 e1 e2 hi hj =>
    split_ifs with hal
    · have he1 := hP e1 (List.get?_mem hi)
      have he2 := hP e2 (List.get?_mem hj)
      have hd2 : 0 ≤ e1.params.aggression * env.interaction_strength * m :=
        mul_nonneg (mul_nonneg he1.2 hs) hm
      have hd1 : 0 ≤ e2.params.aggression * env.interaction_strength * m :=
        mul_nonneg (mul_nonneg he2.2 hs) hm
      apply modifyAt_invariant
      · apply modifyAt_invariant _ _ _ _ hP
        intro e ⟨hb, hag⟩
        refine ⟨⟨?_, ?_, ?_, ?_⟩, hag⟩
        · exact (damage_floor_bounds e.health _ hb.1 hb.2.1 hd2).1
        · exact (damage_floor_bounds e.health _ hb.1 hb.2.1 hd2).2
        · exact (damage_floor_bounds e.energy _ hb.2.2.1 hb.2.2.2 (by linarith)).1
        · exact (damage_floor_bounds e.energy _ hb.2.2.1 hb.2.2.2 (by linarith)).2
      · intro e ⟨hb, hag⟩
        refine ⟨⟨?_, ?_, ?_, ?_⟩, hag⟩
        · exact (damage_floor_bounds e.health _ hb.1 hb.2.1 hd1).1
        · exact (damage_floor_bounds e.health _ hb.1 hb.2.1 hd1).2
        · exact (damage_floor_bounds e.energy _ hb.2.2.1 hb.2.2.2 (by linarith)).1
        · exact (damage_floor_bounds e.energy _ hb.2.2.1 hb.2.2.2 (by linarith)).2
    · exact hP
  case h_2 => exact hP

lemma targetsFold_invariant (env : EnvFactors) (m : ℚ) (i : ℕ) (l : List ℕ)
    (pop : List Entity) (hm : 0 ≤ m) (hs : 0 ≤ env.interaction_strength)
    (hP : ∀ e ∈ pop, vitalsBounded e ∧ 0 ≤ e.params.aggression) :
    ∀ e' ∈ targetsFold env m i l pop, vitalsBounded e' ∧ 0 ≤ e'.params.aggression := by
  induction l generalizing pop with
  | nil => exact hP
  | cons j rest ih =>
    exact ih _ (interactionStep_invariant env m pop i j hm hs hP)

lemma attackerRounds_invariant (env : EnvFactors) (m : ℚ) (alivePos : List ℕ)
    (pop0 : List Entity) (numInteractions : ℕ) (sample : ℕ → List ℕ → ℕ → List ℕ)
    (attackers : List ℕ) (k0 : ℕ) (pop : List Entity) (hm : 0 ≤ m)
    (hs : 0 ≤ env.interaction_strength)
    (hP : ∀ e ∈ pop, vitalsBounded e ∧ 0 ≤ e.params.aggression) :
    ∀ e' ∈ attackerRounds env m alivePos pop0 numInteractions sample attackers k0 pop,
      vitalsBounded e' ∧ 0 ≤ e'.params.aggression := by
  induction attackers generalizing k0 pop with
  | nil => exact hP
  | cons i rest ih =>
    rw [attackerRounds]
    apply ih
    split_ifs
    · exact hP
    · exact targetsFold_invariant env m i _ pop hm hs hP

lemma handleInteractions_invariant (env : EnvFactors)
    (sample : ℕ → List ℕ → ℕ → List ℕ) (pop : List Entity)
    (hs : 0 ≤ env.interaction_strength)
    (hP : ∀ e ∈ pop, vitalsBounded e ∧ 0 ≤ e.params.aggression) :
    ∀ e' ∈ handleInteractions env sample pop,
      vitalsBounded e' ∧ 0 ≤ e'.params.aggression := by
  rw [handleInteractions_eq]
  split_ifs
  · exact hP
  · exact attackerRounds_invariant env _ _ pop _ sample _ 0 pop
      (interactionModifier_nonneg env _) hs hP

lemma reproScan_newborns_bounded (env : EnvFactors) (draws : ℕ → ReproDraws)
    (u : ℕ → ℕ) (t : ℕ) (pop : List Entity) (n uuidCtr : ℕ)
    (Hinit : ∀ k, 0 ≤ (draws k).initH ∧ (draws k).initH ≤ 100 ∧
      0 ≤ (draws k).initE ∧ (draws k).initE ≤ 100) :
    ∀ c ∈ (reproScan env draws u t pop n uuidCtr).1, vitalsBounded c := by
  induction pop generalizing n uuidCtr with
  | nil => intro c hc; cases hc
  | cons e rest ih =>
    rw [reproScan]
    split_ifs with hr
    · intro c hc
      rcases List.mem_cons.mp hc with h' | h'
      · subst h'
        exact ⟨(Hinit n).1, (Hinit n).2.1, (Hinit n).2.2.1, (Hinit n).2.2.2⟩
      · exact ih (n + 1) (uuidCtr + 1) c h'
    · exact ih (n + 1) uuidCtr

lemma predatorKill_params (e : Entity) : (predatorKill e).params = e.params := by
  unfold predatorKill
  rw [updateStatus_params]

lemma epochStep_entities (total t : ℕ) (u : ℕ → ℕ) (o : EpochOracle) (s : SimState) :
    (epochStep total t u o s).1.entities =
      ((handleInteractions (applyEnvEvent o (driftEnv s.env t total) s.entities).1 o.interactionSample
        ((predatorStep o.predatorSample (applyEnvEvent o (driftEnv s.env t total) s.entities).1 t
            (applyEnvEvent o (driftEnv s.env t total) s.entities).2).1.map
          (processEntity (applyEnvEvent o (driftEnv s.env t total) s.entities).1))).map
      updateStatus).filter Entity.isAlive ++
      (reproScan (applyEnvEvent o (driftEnv s.env t total) s.entities).1 o.reproDraws u t
        (((handleInteractions (applyEnvEvent o (driftEnv s.env t total) s.entities).1 o.interactionSample
          ((predatorStep o.predatorSample (applyEnvEvent o (driftEnv s.env t total) s.entities).1 t
              (applyEnvEvent o (driftEnv s.env t total) s.entities).2).1.map
            (processEntity (applyEnvEvent o (driftEnv s.env t total) s.entities).1))).map
        updateStatus).filter Entity.isAlive) 0 s.uuidCtr).1 := rfl

lemma epochStep_all_bounded (total t : ℕ) (u : ℕ → ℕ) (o : EpochOracle) (s : SimState)
    (Hdead : ∀ e ∈ s.entities, e.isAlive = false → vitalsBounded e)
    (Haggr : ∀ e ∈ s.entities, 0 ≤ e.params.aggression)
    (His : 0 ≤ s.env.interaction_strength)
    (Hinit : ∀ k, 0 ≤ (o.reproDraws k).initH ∧ (o.reproDraws k).initH ≤ 100 ∧
      0 ≤ (o.reproDraws k).initE ∧ (o.reproDraws k).initE ≤ 100) :
    ∀ e ∈ (epochStep total t u o s).1.entities, vitalsBounded e := by
  have hQ1 : ∀ e ∈ (applyEnvEvent o (driftEnv s.env t total) s.entities).2,
      (e.isAlive = false → vitalsBounded e) ∧ 0 ≤ e.params.aggression := by
    apply applyEnvEvent_invariant
      (fun e => (e.isAlive = false → vitalsBounded e) ∧ 0 ≤ e.params.aggression)
    · exact fun e he => ⟨Hdead e he, Haggr e he⟩
    · intro k e he
      by_cases ha : e.isAlive = true
      · rw [if_pos ha]
        refine ⟨fun hfalse => ?_, he.2⟩
        have hfalse' : e.isAlive = false := hfalse
        rw [ha] at hfalse'
        cases hfalse'
      · rw [if_neg ha]
        exact he
  have hQ2 : ∀ e ∈ (predatorStep o.predatorSample
      (applyEnvEvent o (driftEnv s.env t total) s.entities).1 t
      (applyEnvEvent o (driftEnv s.env t total) s.entities).2).1,
      (e.isAlive = false → vitalsBounded e) ∧ 0 ≤ e.params.aggression := by
    apply predatorStep_invariant _ _ _ _ _ hQ1
    intro e he
    refine ⟨fun _ => ?_, ?_⟩
    · exact ⟨by rw [(predatorKill_spec e).2.1],
        by rw [(predatorKill_spec e).2.1]; norm_num,
        by rw [(predatorKill_spec e).2.2],
        by rw [(predatorKill_spec e).2.2]; norm_num⟩
    · rw [predatorKill_params]
      exact he.2
  have hB3 : ∀ e ∈ (predatorStep o.predatorSample
      (applyEnvEvent o (driftEnv s.env t total) s.entities).1 t
      (applyEnvEvent o (driftEnv s.env t total) s.entities).2).1.map
        (processEntity (applyEnvEvent o (driftEnv s.env t total) s.entities).1),
      vitalsBounded e ∧ 0 ≤ e.params.aggression := by
    intro e' he'
    obtain ⟨e, he, rfl⟩ := List.mem_map.mp he'
    exact ⟨processEntity_bounded _ e (hQ2 e he).1,
      by rw [processEntity_params]; exact (hQ2 e he).2⟩
  have hs2 : 0 ≤ (applyEnvEvent o (driftEnv s.env t total) s.entities).1.interaction_strength := by
    rw [applyEnvEvent_strength, driftEnv_strength]
    exact His
  have hB4 := handleInteractions_invariant
    (applyEnvEvent o (driftEnv s.env t total) s.entities).1 o.interactionSample _ hs2 hB3
  intro e he
  rw [epochStep_entities] at he
  rcases List.mem_append.mp he with h6 | h7
  · obtain ⟨e4, h4mem, rfl⟩ := List.mem_map.mp (List.mem_filter.mp h6).1
    exact updateStatus_bounded e4 (hB4 e4 h4mem).1
  · exact reproScan_newborns_bounded _ o.reproDraws u t _ 0 s.uuidCtr Hinit e h7

/-! ## Claim C1: the per-epoch vitals invariant -/

/-- C1 as amended: after an epoch, every entity in the population — the
survivors as well as the offspring appended by reproduction — has health and
energy in `[0, 100]`, provided every entity's constructed-in aggression and
the environment's interaction strength are nonnegative (true of the defaults
and of every documented configuration), dead entities entered the epoch with
bounded vitals (they always carry 0/0 in a real run), and the offspring
initial-vitals draws lie in `[0, 100]` (they are drawn from
`uniform(80, 100)`).  The input population is otherwise arbitrary: even an
entity constructed with an out-of-range `initial_health` override is clamped
by its first processing step.  Positions outside the population report the
in-range defaults. -/
theorem claim_c1_vitals_invariant (total t : ℕ) (u : ℕ → ℕ) (o : EpochOracle)
    (s : SimState)
    (Hdead : ∀ e ∈ s.entities, e.isAlive = false → vitalsBounded e)
    (Haggr : ∀ e ∈ s.entities, 0 ≤ e.params.aggression)
    (His : 0 ≤ s.env.interaction_strength)
    (Hinit : ∀ k, 0 ≤ (o.reproDraws k).initH ∧ (o.reproDraws k).initH ≤ 100 ∧
      0 ≤ (o.reproDraws k).initE ∧ (o.reproDraws k).initE ≤ 100) :
    ∀ i : ℕ, 0 ≤ healthAtD (epochStep total t u o s).1.entities i ∧
      healthAtD (epochStep total t u o s).1.entities i ≤ 100 ∧
      0 ≤ energyAtD (epochStep total t u o s).1.entities i ∧
      energyAtD (epochStep total t u o s).1.entities i ≤ 100 := by
  intro i
  have hall := epochStep_all_bounded total t u o s Hdead Haggr His Hinit
  rw [healthAtD, energyAtD]
  cases hres : (epochStep total t u o s).1.entities.get? i with
  | none => exact ⟨by norm_num, by norm_num, by norm_num, by norm_num⟩
  | some e =>
    have hb := hall e (List.get?_mem hres)
    exact ⟨hb.1, hb.2.1, hb.2.2.1, hb.2.2.2⟩

unseal Rat.add Rat.mul Rat.inv Rat.sub in
/-- Witness for C1 as amended, at a two-entity default population. -/
theorem claim_c1_witness :
    0 ≤ healthAtD (epochStep 10 0 (fun n => n) quietOracle plainState).1.entities 0 ∧
    healthAtD (epochStep 10 0 (fun n => n) quietOracle plainState).1.entities 0 ≤ 100 ∧
    0 ≤ energyAtD (epochStep 10 0 (fun n => n) quietOracle plainState).1.entities 0 ∧
    energyAtD (epochStep 10 0 (fun n => n) quietOracle plainState).1.entities 0 ≤ 100 :=
  claim_c1_vitals_invariant 10 0 (fun n => n) quietOracle plainState
    (by decide) (by decide) (by decide)
    (fun k => ⟨by norm_num [quietOracle, okReproDraws],
      by norm_num [quietOracle, okReproDraws], by norm_num [quietOracle, okReproDraws],
      by norm_num [quietOracle, okReproDraws]⟩) 0

set_option maxRecDepth 100000 in
unseal Rat.add Rat.mul Rat.inv Rat.sub in
/-- Counterexample to C1 as stated: with a construction-time parameter
override setting one entity's aggression to −10000 (overrides are not
validated, see C3), the interaction pass *adds* health to its partner — the
damage formula is negative and the code clamps only from below — leaving the
partner with health 1100 after the epoch, far above 100. -/
theorem claim_c1_counterexample :
    100 < healthAtD (epochStep 10 0 (fun n => n) quietOracle negAggState).1.entities 1 := by
  decide

/-! ## Identifier-erasure congruence lemmas (claim C9) -/

lemma eq_setId_of_eraseId_eq {e1 e2 : Entity} (h : Entity.eraseId e1 = Entity.eraseId e2) :
    e2 = { e1 with id := e2.id } := by
  calc e2 = { Entity.eraseId e2 with id := e2.id } := rfl
    _ = { Entity.eraseId e1 with id := e2.id } := by rw [h]
    _ = { e1 with id := e2.id } := rfl

lemma eraseId_congr (g : Entity → Entity)
    (hg : ∀ e x, g { e with id := x } = { g e with id := x }) {e1 e2 : Entity}
    (h : Entity.eraseId e1 = Entity.eraseId e2) :
    Entity.eraseId (g e1) = Entity.eraseId (g e2) := by
  rw [eq_setId_of_eraseId_eq h, hg e1 e2.id]
  rfl

lemma updateStatus_setId (e : Entity) (x : ℕ) :
    updateStatus { e with id := x } = { updateStatus e with id := x } := by
  unfold updateStatus
  dsimp only
  split_ifs <;> rfl

lemma calcEnergyChange_id_irrel (x y a : ℕ) (h en : ℚ) (st : Status)
    (p : EntityParams) (env : EnvFactors) :
    calcEnergyChange ⟨x, a, h, en, st, p⟩ env = calcEnergyChange ⟨y, a, h, en, st, p⟩ env := rfl

lemma calcHealthChange_id_irrel (x y a : ℕ) (h en : ℚ) (st : Status)
    (p : EntityParams) (env : EnvFactors) :
    calcHealthChange ⟨x, a, h, en, st, p⟩ env = calcHealthChange ⟨y, a, h, en, st, p⟩ env := rfl

lemma updateStatus_mk (x y a : ℕ) (h en : ℚ) (st : Status) (p : EntityParams) :
    updateStatus ⟨x, a, h, en, st, p⟩ = { updateStatus ⟨y, a, h, en, st, p⟩ with id := x } :=
  updateStatus_setId ⟨y, a, h, en, st, p⟩ x

lemma processEntity_setId (env : EnvFactors) (e : Entity) (x : ℕ) :
    processEntity env { e with id := x } = { processEntity env e with id := x } := by
  cases e with
  | mk id age health energy status params =>
    unfold processEntity
    by_cases ha : (Entity.mk id age health energy status params).isAlive = true
    · have hax : (Entity.mk x age health energy status params).isAlive = true := ha
      rw [if_neg (not_not_intro hax), if_neg (not_not_intro ha)]
      dsimp only
      rw [calcEnergyChange_id_irrel x id, calcHealthChange_id_irrel x id]
      exact updateStatus_mk x id _ _ _ _ _
    · have hax : ¬(Entity.mk x age health energy status params).isAlive = true := ha
      rw [if_pos hax, if_pos ha]

lemma predatorKill_setId (e : Entity) (x : ℕ) :
    predatorKill { e with id := x } = { predatorKill e with id := x } := by
  unfold predatorKill
  exact updateStatus_setId { e with health := 0 } x

lemma status_of_eraseId_eq {e1 e2 : Entity} (h : Entity.eraseId e1 = Entity.eraseId e2) :
    e1.status = e2.status := by
  have h' : (Entity.eraseId e1).status = (Entity.eraseId e2).status :=
    congrArg Entity.status h
  exact h'

lemma isAlive_of_eraseId_eq {e1 e2 : Entity} (h : Entity.eraseId e1 = Entity.eraseId e2) :
    e1.isAlive = e2.isAlive := by
  unfold Entity.isAlive
  rw [status_of_eraseId_eq h]

lemma get?_eraseId_congr {l1 l2 : List Entity}
    (h : l1.map Entity.eraseId = l2.map Entity.eraseId) (i : ℕ) :
    (l1.get? i).map Entity.eraseId = (l2.get? i).map Entity.eraseId := by
  rw [← List.get?_map, ← List.get?_map, h]

lemma length_eraseId_congr {l1 l2 : List Entity}
    (h : l1.map Entity.eraseId = l2.map Entity.eraseId) : l1.length = l2.length := by
  have := congrArg List.length h
  simpa using this

lemma atD_congr {α : Type} (f : Entity → α) (d : α)
    (hf : ∀ e1 e2, Entity.eraseId e1 = Entity.eraseId e2 → f e1 = f e2)
    {l1 l2 : List Entity} (h : l1.map Entity.eraseId = l2.map Entity.eraseId) (i : ℕ) :
    ((l1.get? i).map f).getD d = ((l2.get? i).map f).getD d := by
  have hopt := get?_eraseId_congr h i
  cases h1 : l1.get? i with
  | none =>
    cases h2 : l2.get? i with
    | none => rfl
    | some e2 => rw [h1, h2] at hopt; simp at hopt
  | some e1 =>
    cases h2 : l2.get? i with
    | none => rw [h1, h2] at hopt; simp at hopt
    | some e2 =>
      rw [h1, h2] at hopt
      simp only [Option.map_some', Option.some.injEq] at hopt
      simp only [Option.map_some', Option.getD_some]
      exact hf e1 e2 hopt

lemma statusAtD_congr {l1 l2 : List Entity}
    (h : l1.map Entity.eraseId = l2.map Entity.eraseId) (i : ℕ) :
    statusAtD l1 i = statusAtD l2 i :=
  atD_congr Entity.status Status.dead (fun _ _ he => status_of_eraseId_eq he) h i

lemma isAliveAtD_congr {l1 l2 : List Entity}
    (h : l1.map Entity.eraseId = l2.map Entity.eraseId) (i : ℕ) :
    isAliveAtD l1 i = isAliveAtD l2 i :=
  atD_congr Entity.isAlive false (fun _ _ he => isAlive_of_eraseId_eq he) h i

lemma countAlive_congr {l1 l2 : List Entity}
    (h : l1.map Entity.eraseId = l2.map Entity.eraseId) :
    countAlive l1 = countAlive l2 := by
  induction l1 generalizing l2 with
  | nil => cases l2 with
    | nil => rfl
    | cons y ys => simp at h
  | cons x xs ih =>
    cases l2 with
    | nil => simp at h
    | cons y ys =>
      simp only [List.map_cons, List.cons.injEq] at h
      rw [countAlive_cons, countAlive_cons, ih h.2, isAlive_of_eraseId_eq h.1]

lemma countStatus_congr (st : Status) {l1 l2 : List Entity}
    (h : l1.map Entity.eraseId = l2.map Entity.eraseId) :
    (l1.filter (fun e => e.status = st)).length =
      (l2.filter (fun e => e.status = st)).length := by
  induction l1 generalizing l2 with
  | nil => cases l2 with
    | nil => rfl
    | cons y ys => simp at h
  | cons x xs ih =>
    cases l2 with
    | nil => simp at h
    | cons y ys =>
      simp only [List.map_cons, List.cons.injEq] at h
      rw [List.filter_cons, List.filter_cons, status_of_eraseId_eq h.1]
      split_ifs
      · simp only [List.length_cons, ih h.2]
      · exact ih h.2

lemma aliveIndices_congr {l1 l2 : List Entity}
    (h : l1.map Entity.eraseId = l2.map Entity.eraseId) :
    aliveIndices l1 = aliveIndices l2 := by
  unfold aliveIndices
  rw [length_eraseId_congr h]
  exact List.filter_congr (fun i _ => by rw [isAliveAtD_congr h i])

lemma strugglingIndices_congr {l1 l2 : List Entity}
    (h : l1.map Entity.eraseId = l2.map Entity.eraseId) :
    strugglingIndices l1 = strugglingIndices l2 := by
  unfold strugglingIndices
  rw [length_eraseId_congr h]
  exact List.filter_congr
    (fun i _ => by simp only [statusAtD_congr h i, isAliveAtD_congr h i])

lemma age_of_eraseId_eq {e1 e2 : Entity} (h : Entity.eraseId e1 = Entity.eraseId e2) :
    e1.age = e2.age := by
  have h' : (Entity.eraseId e1).age = (Entity.eraseId e2).age := congrArg Entity.age h
  exact h'

lemma params_of_eraseId_eq {e1 e2 : Entity} (h : Entity.eraseId e1 = Entity.eraseId e2) :
    e1.params = e2.params := by
  have h' : (Entity.eraseId e1).params = (Entity.eraseId e2).params :=
    congrArg Entity.params h
  exact h'

lemma modifyAt_eraseId_congr (f : Entity → Entity)
    (hf : ∀ e1 e2, Entity.eraseId e1 = Entity.eraseId e2 →
      Entity.eraseId (f e1) = Entity.eraseId (f e2))
    {l1 l2 : List Entity} (h : l1.map Entity.eraseId = l2.map Entity.eraseId) (i : ℕ) :
    (modifyAt l1 i f).map Entity.eraseId = (modifyAt l2 i f).map Entity.eraseId := by
  apply List.ext_get?
  intro j
  rw [List.get?_map, List.get?_map, modifyAt_get?, modifyAt_get?]
  have hopt := get?_eraseId_congr h j
  split_ifs with hij
  · cases h1 : l1.get? j with
    | none =>
      cases h2 : l2.get? j with
      | none => rfl
      | some e2 => rw [h1, h2] at hopt; simp at hopt
    | some e1 =>
      cases h2 : l2.get? j with
      | none => rw [h1, h2] at hopt; simp at hopt
      | some e2 =>
        rw [h1, h2] at hopt
        simp only [Option.map_some', Option.some.injEq] at hopt
        simp only [Option.map_some', Option.some.injEq]
        exact hf e1 e2 hopt
  · exact hopt

lemma diseaseUpd_setId (d : ℚ) (e : Entity) (x : ℕ) :
    (if ({ e with id := x } : Entity).isAlive then
      { ({ e with id := x } : Entity) with health := max 0 (e.health - d) }
     else { e with id := x }) =
    { (if e.isAlive then { e with health := max 0 (e.health - d) } else e) with id := x } := by
  cases e
  unfold Entity.isAlive
  dsimp only
  split_ifs <;> rfl

lemma applyDisease_congr (dmg : ℕ → ℚ) (ts : List ℕ) (n : ℕ) {l1 l2 : List Entity}
    (h : l1.map Entity.eraseId = l2.map Entity.eraseId) :
    (applyDisease dmg ts n l1).map Entity.eraseId =
      (applyDisease dmg ts n l2).map Entity.eraseId := by
  induction ts generalizing n l1 l2 with
  | nil => exact h
  | cons i rest ih =>
    rw [applyDisease, applyDisease]
    apply ih
    apply modifyAt_eraseId_congr _ _ h
    intro e1 e2 he
    apply eraseId_congr _ _ he
    intro e x
    have := diseaseUpd_setId (dmg n) e x
    convert this using 3 <;> rw [show ({ e with id := x } : Entity).health = e.health from rfl]

lemma predatorKill_eraseId_congr {e1 e2 : Entity}
    (h : Entity.eraseId e1 = Entity.eraseId e2) :
    Entity.eraseId (predatorKill e1) = Entity.eraseId (predatorKill e2) :=
  eraseId_congr predatorKill predatorKill_setId h

lemma predatorKillAll_congr (t : ℕ) (ts : List ℕ) {l1 l2 : List Entity}
    (h : l1.map Entity.eraseId = l2.map Entity.eraseId) :
    (predatorKillAll t ts l1).1.map Entity.eraseId =
      (predatorKillAll t ts l2).1.map Entity.eraseId ∧
    (predatorKillAll t ts l1).2.map Event.stripIds =
      (predatorKillAll t ts l2).2.map Event.stripIds := by
  induction ts generalizing l1 l2 with
  | nil => exact ⟨h, rfl⟩
  | cons i rest ih =>
    have hmod := modifyAt_eraseId_congr predatorKill
      (fun _ _ he => predatorKill_eraseId_congr he) h i
    obtain ⟨h1, h2⟩ := ih hmod
    exact ⟨h1, by rw [predatorKillAll, predatorKillAll]; simpa [Event.stripIds] using h2⟩

lemma predatorStep_congr (sample : List ℕ → ℕ → List ℕ) (env : EnvFactors) (t : ℕ)
    {l1 l2 : List Entity} (h : l1.map Entity.eraseId = l2.map Entity.eraseId) :
    (predatorStep sample env t l1).1.map Entity.eraseId =
      (predatorStep sample env t l2).1.map Entity.eraseId ∧
    (predatorStep sample env t l1).2.map Event.stripIds =
      (predatorStep sample env t l2).2.map Event.stripIds := by
  rw [predatorStep_eq, predatorStep_eq, countAlive_congr h, strugglingIndices_congr h,
    aliveIndices_congr h]
  split_ifs with h1 h2
  · exact predatorKillAll_congr t _ h
  · exact predatorKillAll_congr t _ h
  · exact ⟨h, rfl⟩

lemma map_eraseId_congr (g : Entity → Entity)
    (hg : ∀ e1 e2, Entity.eraseId e1 = Entity.eraseId e2 →
      Entity.eraseId (g e1) = Entity.eraseId (g e2))
    {l1 l2 : List Entity} (h : l1.map Entity.eraseId = l2.map Entity.eraseId) :
    (l1.map g).map Entity.eraseId = (l2.map g).map Entity.eraseId := by
  induction l1 generalizing l2 with
  | nil => cases l2 with
    | nil => rfl
    | cons y ys => simp at h
  | cons x xs ih =>
    cases l2 with
    | nil => simp at h
    | cons y ys =>
      simp only [List.map_cons, List.cons.injEq] at h ⊢
      exact ⟨hg x y h.1, ih h.2⟩

lemma filter_isAlive_congr {l1 l2 : List Entity}
    (h : l1.map Entity.eraseId = l2.map Entity.eraseId) :
    (l1.filter Entity.isAlive).map Entity.eraseId =
      (l2.filter Entity.isAlive).map Entity.eraseId := by
  induction l1 generalizing l2 with
  | nil => cases l2 with
    | nil => rfl
    | cons y ys => simp at h
  | cons x xs ih =>
    cases l2 with
    | nil => simp at h
    | cons y ys =>
      simp only [List.map_cons, List.cons.injEq] at h
      rw [List.filter_cons, List.filter_cons, ← isAlive_of_eraseId_eq h.1]
      split_ifs
      · simp only [List.map_cons, List.cons.injEq]
        exact ⟨h.1, ih h.2⟩
      · exact ih h.2

lemma deathEvents_congr {l1 l2 : List Entity}
    (h : l1.map Entity.eraseId = l2.map Entity.eraseId) :
    (l1.filterMap (fun e => if e.isAlive then none
        else some (Event.died e.id e.age))).map Event.stripIds =
      (l2.filterMap (fun e => if e.isAlive then none
        else some (Event.died e.id e.age))).map Event.stripIds := by
  induction l1 generalizing l2 with
  | nil => cases l2 with
    | nil => rfl
    | cons y ys => simp at h
  | cons x xs ih =>
    cases l2 with
    | nil => simp at h
    | cons y ys =>
      simp only [List.map_cons, List.cons.injEq] at h
      rw [List.filterMap_cons, List.filterMap_cons, ← isAlive_of_eraseId_eq h.1]
      split_ifs
      · exact ih h.2
      · simp only [List.map_cons, List.cons.injEq, Event.stripIds]
        exact ⟨by rw [age_of_eraseId_eq h.1], ih h.2⟩

lemma reproduces_congr {e1 e2 : Entity} (q : ℚ)
    (h : Entity.eraseId e1 = Entity.eraseId e2) :
    reproduces e1 q = reproduces e2 q := by
  unfold reproduces
  rw [status_of_eraseId_eq h, age_of_eraseId_eq h, params_of_eraseId_eq h]

lemma mkOffspring_eraseId_congr (env : EnvFactors) (d : ReproDraws) (c1 c2 : ℕ)
    {e1 e2 : Entity} (h : Entity.eraseId e1 = Entity.eraseId e2) :
    Entity.eraseId (mkOffspring env e1 d c1) = Entity.eraseId (mkOffspring env e2 d c2) := by
  unfold mkOffspring mkEntity
  rw [params_of_eraseId_eq h]
  rfl

lemma reproScan_congr (env : EnvFactors) (draws : ℕ → ReproDraws) (u1 u2 : ℕ → ℕ)
    (t : ℕ) {l1 l2 : List Entity} (n ctr : ℕ)
    (h : l1.map Entity.eraseId = l2.map Entity.eraseId) :
    (reproScan env draws u1 t l1 n ctr).1.map Entity.eraseId =
      (reproScan env draws u2 t l2 n ctr).1.map Entity.eraseId ∧
    (reproScan env draws u1 t l1 n ctr).2.1 = (reproScan env draws u2 t l2 n ctr).2.1 ∧
    (reproScan env draws u1 t l1 n ctr).2.2.map Event.stripIds =
      (reproScan env draws u2 t l2 n ctr).2.2.map Event.stripIds := by
  induction l1 generalizing l2 n ctr with
  | nil => cases l2 with
    | nil => exact ⟨rfl, rfl, rfl⟩
    | cons y ys => simp at h
  | cons x xs ih =>
    cases l2 with
    | nil => simp at h
    | cons y ys =>
      simp only [List.map_cons, List.cons.injEq] at h
      rw [reproScan, reproScan, ← reproduces_congr _ h.1]
      split_ifs
      · obtain ⟨ih1, ih2, ih3⟩ := ih (n + 1) (ctr + 1) h.2
        refine ⟨?_, ih2, ?_⟩
        · simp only [List.map_cons, List.cons.injEq]
          exact ⟨mkOffspring_eraseId_congr env (draws n) (u1 ctr) (u2 ctr) h.1, ih1⟩
        · simp only [List.map_cons, List.cons.injEq, Event.stripIds]
          exact ⟨by trivial, ih3⟩
      · exact ih (n + 1) ctr h.2

lemma idAtD_inj (pop : List Entity) (h : (pop.map Entity.id).Nodup) (i j : ℕ)
    (hi : i < pop.length) (hj : j < pop.length) :
    idAtD pop i = idAtD pop j ↔ i = j := by
  constructor
  · intro heq
    have hinj := List.nodup_iff_injective_get.mp h
    have hgi : pop.get? i = some (pop.get ⟨i, hi⟩) := List.get?_eq_get hi
    have hgj : pop.get? j = some (pop.get ⟨j, hj⟩) := List.get?_eq_get hj
    rw [idAtD, hgi] at heq
    rw [idAtD, hgj] at heq
    have hmi : (pop.map Entity.id).get ⟨i, by simpa using hi⟩ =
        (pop.map Entity.id).get ⟨j, by simpa using hj⟩ := by
      rw [List.get_map, List.get_map]
      exact heq
    have := hinj hmi
    exact congrArg (fun x : Fin (pop.map Entity.id).length => x.val) this
  · intro heq
    rw [heq]

lemma potentialPos_eq (pop : List Entity) (h : (pop.map Entity.id).Nodup)
    (alivePos : List ℕ) (hAP : ∀ j ∈ alivePos, j < pop.length) (i : ℕ)
    (hi : i < pop.length) :
    alivePos.filter (fun j => idAtD pop j ≠ idAtD pop i) =
      alivePos.filter (fun j => j ≠ i) := by
  apply List.filter_congr
  intro j hj
  have := idAtD_inj pop h j i (hAP j hj) hi
  simp only [ne_eq, decide_eq_decide]
  exact not_congr this

lemma dmgUpd_setId (d : ℚ) (e : Entity) (x : ℕ) :
    ({ ({ e with id := x } : Entity) with
        health := max 0 (({ e with id := x } : Entity).health - d),
        energy := max 0 (({ e with id := x } : Entity).energy - d / 2) }) =
      { ({ e with
            health := max 0 (e.health - d),
            energy := max 0 (e.energy - d / 2) } : Entity) with id := x } := by
  cases e
  rfl

lemma dmgUpd_eraseId_congr (d : ℚ) {e1 e2 : Entity}
    (h : Entity.eraseId e1 = Entity.eraseId e2) :
    Entity.eraseId
        { e1 with
          health := max 0 (e1.health - d),
          energy := max 0 (e1.energy - d / 2) } =
      Entity.eraseId
        { e2 with
          health := max 0 (e2.health - d),
          energy := max 0 (e2.energy - d / 2) } :=
  eraseId_congr
    (fun e =>
      { e with
        health := max 0 (e.health - d),
        energy := max 0 (e.energy - d / 2) })
    (fun e x => dmgUpd_setId d e x) h

lemma interactionStep_congr (env : EnvFactors) (m : ℚ) (i j : ℕ) {l1 l2 : List Entity}
    (h : l1.map Entity.eraseId = l2.map Entity.eraseId) :
    (interactionStep env m l1 i j).map Entity.eraseId =
      (interactionStep env m l2 i j).map Entity.eraseId := by
  have hoi := get?_eraseId_congr h i
  have hoj := get?_eraseId_congr h j
  unfold interactionStep
  cases h1i : l1.get? i with
  | none =>
    cases h2i : l2.get? i with
    | none => exact h
    | some f1 => rw [h1i, h2i] at hoi; simp at hoi
  | some e1 =>
    cases h2i : l2.get? i with
    | none => rw [h1i, h2i] at hoi; simp at hoi
    | some f1 =>
      rw [h1i, h2i] at hoi
      simp only [Option.map_some', Option.some.injEq] at hoi
      cases h1j : l1.get? j with
      | none =>
        cases h2j : l2.get? j with
        | none => exact h
        | some f2 => rw [h1j, h2j] at hoj; simp at hoj
      | some e2 =>
        cases h2j : l2.get? j with
        | none => rw [h1j, h2j] at hoj; simp at hoj
        | some f2 =>
          rw [h1j, h2j] at hoj
          simp only [Option.map_some', Option.some.injEq] at hoj
          dsimp only
          rw [isAlive_of_eraseId_eq hoi, isAlive_of_eraseId_eq hoj,
            params_of_eraseId_eq hoi, params_of_eraseId_eq hoj]
          split_ifs with hc
          · exact modifyAt_eraseId_congr _
              (fun _ _ he => dmgUpd_eraseId_congr _ he)
              (modifyAt_eraseId_congr _
                (fun _ _ he => dmgUpd_eraseId_congr _ he) h j) i
          · exact h

lemma targetsFold_congr (env : EnvFactors) (m : ℚ) (i : ℕ) (l : List ℕ)
    {l1 l2 : List Entity} (h : l1.map Entity.eraseId = l2.map Entity.eraseId) :
    (targetsFold env m i l l1).map Entity.eraseId =
      (targetsFold env m i l l2).map Entity.eraseId := by
  induction l generalizing l1 l2 with
  | nil => exact h
  | cons j rest ih => exact ih (interactionStep_congr env m i j h)

lemma attackerRounds_congr (env : EnvFactors) (m : ℚ) (alivePos : List ℕ)
    (numInteractions : ℕ) (sample : ℕ → List ℕ → ℕ → List ℕ) (attackers : List ℕ)
    {pop01 pop02 : List Entity}
    (hpop0 : pop01.map Entity.eraseId = pop02.map Entity.eraseId)
    (hnd1 : (pop01.map Entity.id).Nodup) (hnd2 : (pop02.map Entity.id).Nodup)
    (hAP : ∀ j ∈ alivePos, j < pop01.length) :
    ∀ (k : ℕ) (pop1 pop2 : List Entity), (∀ i ∈ attackers, i < pop01.length) →
      pop1.map Entity.eraseId = pop2.map Entity.eraseId →
      (attackerRounds env m alivePos pop01 numInteractions sample attackers k pop1).map
          Entity.eraseId =
        (attackerRounds env m alivePos pop02 numInteractions sample attackers k pop2).map
          Entity.eraseId := by
  induction attackers with
  | nil => exact fun k pop1 pop2 _ h => h
  | cons i rest ih =>
    intro k pop1 pop2 hatt h
    rw [attackerRounds, attackerRounds]
    have hi : i < pop01.length := hatt i (List.mem_cons_self i rest)
    have hAP2 : ∀ j ∈ alivePos, j < pop02.length := by
      rw [← length_eraseId_congr hpop0]
      exact hAP
    have hpp : alivePos.filter (fun j => idAtD pop01 j ≠ idAtD pop01 i) =
        alivePos.filter (fun j => idAtD pop02 j ≠ idAtD pop02 i) := by
      rw [potentialPos_eq pop01 hnd1 alivePos hAP i hi,
        potentialPos_eq pop02 hnd2 alivePos hAP2 i
          (by rw [← length_eraseId_congr hpop0]; exact hi)]
    rw [← hpp]
    apply ih (k + 1) _ _ (fun x hx => hatt x (List.mem_cons_of_mem i hx))
    split_ifs
    · exact h
    · exact targetsFold_congr env m i _ h

lemma handleInteractions_congr (env : EnvFactors) (sample : ℕ → List ℕ → ℕ → List ℕ)
    {l1 l2 : List Entity} (hnd1 : (l1.map Entity.id).Nodup)
    (hnd2 : (l2.map Entity.id).Nodup)
    (h : l1.map Entity.eraseId = l2.map Entity.eraseId) :
    (handleInteractions env sample l1).map Entity.eraseId =
      (handleInteractions env sample l2).map Entity.eraseId := by
  rw [handleInteractions_eq, handleInteractions_eq, ← aliveIndices_congr h]
  split_ifs
  · exact h
  · exact attackerRounds_congr env _ _ _ sample _ h hnd1 hnd2
      (fun j hj => ((mem_aliveIndices l1 j).mp hj).1) 0 l1 l2
      (fun i hi => ((mem_aliveIndices l1 i).mp hi).1) h

/-! ## Identifier preservation through the epoch stages (claim C9) -/

lemma updateStatus_id (e : Entity) : (updateStatus e).id = e.id := by
  unfold updateStatus
  split_ifs <;> rfl

lemma processEntity_id (env : EnvFactors) (e : Entity) :
    (processEntity env e).id = e.id := by
  unfold processEntity
  split_ifs
  · dsimp only
    rw [updateStatus_id]
  · rfl

lemma predatorKill_id (e : Entity) : (predatorKill e).id = e.id := by
  unfold predatorKill
  rw [updateStatus_id]

lemma modifyAt_map_id (l : List Entity) (i : ℕ) (f : Entity → Entity)
    (hf : ∀ e, (f e).id = e.id) :
    (modifyAt l i f).map Entity.id = l.map Entity.id := by
  induction l generalizing i with
  | nil => rfl
  | cons x xs ih =>
    cases i with
    | zero => simp only [modifyAt, List.map_cons, hf x]
    | succ n => simp only [modifyAt, List.map_cons, ih n]

lemma map_map_id (g : Entity → Entity) (hg : ∀ e, (g e).id = e.id)
    (pop : List Entity) : (pop.map g).map Entity.id = pop.map Entity.id := by
  induction pop with
  | nil => rfl
  | cons x xs ih => simp only [List.map_cons, hg x, ih]

lemma applyDisease_map_id (dmg : ℕ → ℚ) (ts : List ℕ) (n : ℕ) (pop : List Entity) :
    (applyDisease dmg ts n pop).map Entity.id = pop.map Entity.id := by
  induction ts generalizing n pop with
  | nil => rfl
  | cons i rest ih =>
    rw [applyDisease, ih, modifyAt_map_id]
    intro e
    split_ifs <;> rfl

lemma applyEnvEvent_map_id (o : EpochOracle) (env : EnvFactors) (pop : List Entity) :
    (applyEnvEvent o env pop).2.map Entity.id = pop.map Entity.id := by
  unfold applyEnvEvent
  split_ifs with h
  · rcases hc : o.eventChoice % 3 with _ | n
    · rfl
    · rcases n with _ | m
      · exact applyDisease_map_id o.diseaseDmg _ 0 pop
      · rfl
  · rfl

lemma applyEnvEvent_env_const (o : EpochOracle) (env : EnvFactors)
    (pop1 pop2 : List Entity) :
    (applyEnvEvent o env pop1).1 = (applyEnvEvent o env pop2).1 := by
  unfold applyEnvEvent
  split_ifs with h
  · rcases hc : o.eventChoice % 3 with _ | n
    · rfl
    · rcases n with _ | m <;> rfl
  · rfl

lemma applyEnvEvent_congr (o : EpochOracle) (env : EnvFactors)
    {l1 l2 : List Entity} (h : l1.map Entity.eraseId = l2.map Entity.eraseId) :
    (applyEnvEvent o env l1).2.map Entity.eraseId =
      (applyEnvEvent o env l2).2.map Entity.eraseId := by
  unfold applyEnvEvent
  split_ifs with hev
  · rcases hc : o.eventChoice % 3 with _ | n
    · exact h
    · rcases n with _ | m
      · rw [length_eraseId_congr h]
        exact applyDisease_congr o.diseaseDmg _ 0 h
      · exact h
  · exact h

lemma predatorKillAll_map_id (t : ℕ) (ts : List ℕ) (pop : List Entity) :
    (predatorKillAll t ts pop).1.map Entity.id = pop.map Entity.id := by
  induction ts generalizing pop with
  | nil => rfl
  | cons i rest ih =>
    rw [predatorKillAll]
    dsimp only
    rw [ih, modifyAt_map_id]
    exact fun e => predatorKill_id e

lemma predatorStep_map_id (sample : List ℕ → ℕ → List ℕ) (env : EnvFactors) (t : ℕ)
    (pop : List Entity) :
    (predatorStep sample env t pop).1.map Entity.id = pop.map Entity.id := by
  rw [predatorStep_eq]
  split_ifs
  · exact predatorKillAll_map_id t _ pop
  · exact predatorKillAll_map_id t _ pop
  · rfl

lemma interactionStep_map_id (env : EnvFactors) (m : ℚ) (pop : List Entity) (i j : ℕ) :
    (interactionStep env m pop i j).map Entity.id = pop.map Entity.id := by
  unfold interactionStep
  split
  case h_1 e1 e2 hi hj =>
    split_ifs
    · dsimp only
      rw [modifyAt_map_id, modifyAt_map_id]
      · exact fun e => rfl
      · exact fun e => rfl
    · rfl
  case h_2 => rfl

lemma targetsFold_map_id (env : EnvFactors) (m : ℚ) (i : ℕ) (l : List ℕ)
    (pop : List Entity) :
    (targetsFold env m i l pop).map Entity.id = pop.map Entity.id := by
  induction l generalizing pop with
  | nil => rfl
  | cons j rest ih => rw [targetsFold, ih, interactionStep_map_id]

lemma attackerRounds_map_id (env : EnvFactors) (m : ℚ) (alivePos : List ℕ)
    (pop0 : List Entity) (numInteractions : ℕ) (sample : ℕ → List ℕ → ℕ → List ℕ)
    (attackers : List ℕ) (k : ℕ) (pop : List Entity) :
    (attackerRounds env m alivePos pop0 numInteractions sample attackers k pop).map
        Entity.id = pop.map Entity.id := by
  induction attackers generalizing k pop with
  | nil => rfl
  | cons i rest ih =>
    rw [attackerRounds]
    rw [ih]
    split_ifs
    · rfl
    · exact targetsFold_map_id env m i _ pop

lemma handleInteractions_map_id (env : EnvFactors) (sample : ℕ → List ℕ → ℕ → List ℕ)
    (pop : List Entity) :
    (handleInteractions env sample pop).map Entity.id = pop.map Entity.id := by
  rw [handleInteractions_eq]
  split_ifs
  · rfl
  · exact attackerRounds_map_id env _ _ pop _ sample _ 0 pop

lemma mkOffspring_id (env : EnvFactors) (parent : Entity) (d : ReproDraws) (cid : ℕ) :
    (mkOffspring env parent d cid).id = cid := rfl

lemma reproScan_ids (env : EnvFactors) (draws : ℕ → ReproDraws) (u : ℕ → ℕ) (t : ℕ)
    (pop : List Entity) : ∀ (n ctr : ℕ),
    (reproScan env draws u t pop n ctr).2.1 =
      ctr + (reproScan env draws u t pop n ctr).1.length ∧
    (reproScan env draws u t pop n ctr).1.map Entity.id =
      (List.range' ctr (reproScan env draws u t pop n ctr).1.length).map u := by
  induction pop with
  | nil => exact fun n ctr => ⟨rfl, rfl⟩
  | cons e rest ih =>
    intro n ctr
    rw [reproScan]
    split_ifs
    · obtain ⟨ih1, ih2⟩ := ih (n + 1) (ctr + 1)
      dsimp only
      constructor
      · simp only [List.length_cons]
        rw [ih1]
        omega
      · simp only [List.map_cons, List.length_cons, List.range'_succ]
        rw [ih2]
        rfl
    · exact ih (n + 1) ctr

lemma IdsOk_of_map_id_eq (u : ℕ → ℕ) (ctr : ℕ) {l1 l2 : List Entity}
    (h : l2.map Entity.id = l1.map Entity.id) (hok : IdsOk u ctr l1) :
    IdsOk u ctr l2 := by
  constructor
  · rw [h]
    exact hok.1
  · intro n hn
    rw [h]
    exact hok.2 n hn

lemma IdsOk_sublist (u : ℕ → ℕ) (ctr : ℕ) {l1 l2 : List Entity}
    (h : List.Sublist l2 l1) (hok : IdsOk u ctr l1) : IdsOk u ctr l2 :=
  ⟨hok.1.sublist (h.map Entity.id), fun n hn hmem =>
    hok.2 n hn ((h.map Entity.id).subset hmem)⟩

lemma handleReproduction_ids_ok (env : EnvFactors) (draws : ℕ → ReproDraws)
    (u : ℕ → ℕ) (hu : Function.Injective u) (t ctr : ℕ) (pop : List Entity)
    (h : IdsOk u ctr pop) :
    IdsOk u (handleReproduction env draws u t ctr pop).2.1
      (handleReproduction env draws u t ctr pop).1 := by
  obtain ⟨hctr, hids⟩ := reproScan_ids env draws u t pop 0 ctr
  show IdsOk u (reproScan env draws u t pop 0 ctr).2.1
    (pop ++ (reproScan env draws u t pop 0 ctr).1)
  constructor
  · rw [List.map_append, List.nodup_append]
    refine ⟨h.1, ?_, ?_⟩
    · rw [hids]
      exact List.Nodup.map hu (List.nodup_range' _ _)
    · intro a ha hb
      rw [hids] at hb
      obtain ⟨k, hk, rfl⟩ := List.mem_map.mp hb
      have hk' := List.mem_range'_1.mp hk
      exact h.2 k hk'.1 ha
  · intro n hn
    rw [hctr] at hn
    rw [List.map_append, List.mem_append]
    rintro (hmem | hmem)
    · exact h.2 n (le_trans (Nat.le_add_right _ _) hn) hmem
    · rw [hids] at hmem
      obtain ⟨k, hk, hne⟩ := List.mem_map.mp hmem
      have hk' := List.mem_range'_1.mp hk
      have hkn := hu hne
      omega

lemma epochStep_ids_ok (total t : ℕ) (u : ℕ → ℕ) (hu : Function.Injective u)
    (o : EpochOracle) (s : SimState) (h : IdsOk u s.uuidCtr s.entities) :
    IdsOk u (epochStep total t u o s).1.uuidCtr (epochStep total t u o s).1.entities := by
  simp only [epochStep]
  refine handleReproduction_ids_ok _ _ _ hu _ _ _ ?_
  refine IdsOk_sublist u s.uuidCtr (List.filter_sublist _) ?_
  refine IdsOk_of_map_id_eq u s.uuidCtr ?_ h
  rw [map_map_id updateStatus updateStatus_id, handleInteractions_map_id,
    map_map_id _ (processEntity_id _), predatorStep_map_id, applyEnvEvent_map_id]

lemma epochStep_congr (total t : ℕ) (u1 u2 : ℕ → ℕ) (o : EpochOracle)
    (s1 s2 : SimState) (henv : s1.env = s2.env) (hctr : s1.uuidCtr = s2.uuidCtr)
    (hnd1 : (s1.entities.map Entity.id).Nodup) (hnd2 : (s2.entities.map Entity.id).Nodup)
    (h : s1.entities.map Entity.eraseId = s2.entities.map Entity.eraseId) :
    (epochStep total t u1 o s1).1.entities.map Entity.eraseId =
      (epochStep total t u2 o s2).1.entities.map Entity.eraseId ∧
    (epochStep total t u1 o s1).1.env = (epochStep total t u2 o s2).1.env ∧
    (epochStep total t u1 o s1).1.uuidCtr = (epochStep total t u2 o s2).1.uuidCtr ∧
    (epochStep total t u1 o s1).2.map Event.stripIds =
      (epochStep total t u2 o s2).2.map Event.stripIds := by
  obtain ⟨l1, env1, ctr1⟩ := s1
  obtain ⟨l2, env2, ctr2⟩ := s2
  dsimp only at henv hctr hnd1 hnd2 h
  subst henv
  subst hctr
  simp only [epochStep, handleReproduction]
  rw [applyEnvEvent_env_const o (driftEnv env1 t total) l2 l1]
  have hA : (applyEnvEvent o (driftEnv env1 t total) l1).2.map Entity.eraseId =
      (applyEnvEvent o (driftEnv env1 t total) l2).2.map Entity.eraseId :=
    applyEnvEvent_congr o _ h
  have hP := predatorStep_congr o.predatorSample
    (applyEnvEvent o (driftEnv env1 t total) l1).1 t hA
  have hM := map_eraseId_congr
    (processEntity (applyEnvEvent o (driftEnv env1 t total) l1).1)
    (fun a b hab => eraseId_congr _ (processEntity_setId _) hab) hP.1
  have hnd3 : (((predatorStep o.predatorSample
      (applyEnvEvent o (driftEnv env1 t total) l1).1 t
      (applyEnvEvent o (driftEnv env1 t total) l1).2).1.map
        (processEntity (applyEnvEvent o (driftEnv env1 t total) l1).1)).map
          Entity.id).Nodup := by
    rw [map_map_id _ (processEntity_id _), predatorStep_map_id, applyEnvEvent_map_id]
    exact hnd1
  have hnd4 : (((predatorStep o.predatorSample
      (applyEnvEvent o (driftEnv env1 t total) l1).1 t
      (applyEnvEvent o (driftEnv env1 t total) l2).2).1.map
        (processEntity (applyEnvEvent o (driftEnv env1 t total) l1).1)).map
          Entity.id).Nodup := by
    rw [map_map_id _ (processEntity_id _), predatorStep_map_id, applyEnvEvent_map_id]
    exact hnd2
  have hI := handleInteractions_congr
    (applyEnvEvent o (driftEnv env1 t total) l1).1 o.interactionSample hnd3 hnd4 hM
  have hU := map_eraseId_congr updateStatus
    (fun a b hab => eraseId_congr _ updateStatus_setId hab) hI
  have hD := deathEvents_congr hU
  have hF := filter_isAlive_congr hU
  have hR := reproScan_congr
    (applyEnvEvent o (driftEnv env1 t total) l1).1 o.reproDraws u1 u2 t 0 ctr1 hF
  have h7 : ((((handleInteractions (applyEnvEvent o (driftEnv env1 t total) l1).1 o.interactionSample ((predatorStep o.predatorSample (applyEnvEvent o (driftEnv env1 t total) l1).1 t (applyEnvEvent o (driftEnv env1 t total) l1).2).1.map (processEntity (applyEnvEvent o (driftEnv env1 t total) l1).1))).map updateStatus).filter Entity.isAlive) ++ (reproScan (applyEnvEvent o (driftEnv env1 t total) l1).1 o.reproDraws u1 t (((handleInteractions (applyEnvEvent o (driftEnv env1 t total) l1).1 o.interactionSample ((predatorStep o.predatorSample (applyEnvEvent o (driftEnv env1 t total) l1).1 t (applyEnvEvent o (driftEnv env1 t total) l1).2).1.map (processEntity (applyEnvEvent o (driftEnv env1 t total) l1).1))).map updateStatus).filter Entity.isAlive) 0 ctr1).1).map Entity.eraseId =
      ((((handleInteractions (applyEnvEvent o (driftEnv env1 t total) l1).1 o.interactionSample ((predatorStep o.predatorSample (applyEnvEvent o (driftEnv env1 t total) l1).1 t (applyEnvEvent o (driftEnv env1 t total) l2).2).1.map (processEntity (applyEnvEvent o (driftEnv env1 t total) l1).1))).map updateStatus).filter Entity.isAlive) ++ (reproScan (applyEnvEvent o (driftEnv env1 t total) l1).1 o.reproDraws u2 t (((handleInteractions (applyEnvEvent o (driftEnv env1 t total) l1).1 o.interactionSample ((predatorStep o.predatorSample (applyEnvEvent o (driftEnv env1 t total) l1).1 t (applyEnvEvent o (driftEnv env1 t total) l2).2).1.map (processEntity (applyEnvEvent o (driftEnv env1 t total) l1).1))).map updateStatus).filter Entity.isAlive) 0 ctr1).1).map Entity.eraseId := by
    rw [List.map_append, List.map_append, hF, hR.1]
  refine ⟨h7, rfl, hR.2.1, ?_⟩
  simp only [List.map_append, List.map_cons, List.map_nil, Event.stripIds]
  rw [hP.2, hD, hR.2.2, length_eraseId_congr h7,
    countStatus_congr Status.thriving h7, countStatus_congr Status.struggling h7]

lemma runAux_congr (total : ℕ) (u1 u2 : ℕ → ℕ) (hu1 : Function.Injective u1)
    (hu2 : Function.Injective u2) (os : ℕ → EpochOracle) :
    ∀ (fuel t : ℕ) (s1 s2 : SimState), s1.env = s2.env → s1.uuidCtr = s2.uuidCtr →
      IdsOk u1 s1.uuidCtr s1.entities → IdsOk u2 s2.uuidCtr s2.entities →
      s1.entities.map Entity.eraseId = s2.entities.map Entity.eraseId →
      (runAux total u1 os fuel t s1).map Event.stripIds =
        (runAux total u2 os fuel t s2).map Event.stripIds := by
  intro fuel
  induction fuel with
  | zero => intro t s1 s2 _ _ _ _ _; rfl
  | succ n ih =>
    intro t s1 s2 henv hctr hok1 hok2 h
    obtain ⟨he, henv', hctr', hev⟩ :=
      epochStep_congr total t u1 u2 (os t) s1 s2 henv hctr hok1.1 hok2.1 h
    have hlen : (epochStep total t u1 (os t) s1).1.entities.length =
        (epochStep total t u2 (os t) s2).1.entities.length := length_eraseId_congr he
    rw [runAux, runAux]
    rw [← hlen]
    split_ifs with h0
    · exact hev
    · rw [List.map_append, List.map_append, hev,
        ih (t + 1) _ _ henv' hctr'
          (epochStep_ids_ok total t u1 hu1 (os t) s1 hok1)
          (epochStep_ids_ok total t u2 hu2 (os t) s2 hok2) he]

set_option maxRecDepth 100000 in
unseal Rat.add Rat.mul Rat.inv Rat.sub in
/-- Counterexample to C9 as stated: the engine draws every entity identifier
from `uuid.uuid4()`, which reads operating-system entropy and is not governed
by the seeded random stream (main.py line 35, entity.py lines 33-34), and the
identifiers appear verbatim in the emitted birth events.  Two runs from the
same seeded stream and the same initial population, differing only in the
uuid entropy (modelled as two identifier streams), emit different event
sequences: here the single birth event carries child id 100 in one run and
200 in the other, so the traces are not bit-for-bit identical. -/
theorem claim_c9_counterexample :
    runSim 1 (fun n => 100 + n) (fun _ => quietOracle) c9state ≠
      runSim 1 (fun n => 200 + n) (fun _ => quietOracle) c9state := by
  decide

/-- C9 as amended: the trace is deterministic up to the identifier fields.
Given the same seeded random stream (the oracles), the same initial
population, environment and uuid counter, and any two injective uuid streams
that are fresh for the initial population, the two runs emit the same event
sequence after erasing the entity identifiers carried inside the events;
every other field of every event — kinds, order, epochs, ages and the
population summaries — is identical. -/
theorem claim_c9_trace_determinism (total : ℕ) (u1 u2 : ℕ → ℕ)
    (hu1 : Function.Injective u1) (hu2 : Function.Injective u2)
    (os : ℕ → EpochOracle) (s : SimState)
    (hok1 : IdsOk u1 s.uuidCtr s.entities) (hok2 : IdsOk u2 s.uuidCtr s.entities) :
    (runSim total u1 os s).map Event.stripIds =
      (runSim total u2 os s).map Event.stripIds :=
  runAux_congr total u1 u2 hu1 hu2 os total 0 s s rfl rfl hok1 hok2 rfl

/-- Witness for C9 as amended: the two runs of the counterexample, which emit
different raw traces, agree after erasing the identifier fields. -/
theorem claim_c9_witness :
    (runSim 1 (fun n => 100 + n) (fun _ => quietOracle) c9state).map Event.stripIds =
      (runSim 1 (fun n => 200 + n) (fun _ => quietOracle) c9state).map Event.stripIds :=
  claim_c9_trace_determinism 1 (fun n => 100 + n) (fun n => 200 + n)
    (fun a b hab => by simpa using hab)
    (fun a b hab => by simpa using hab)
    (fun _ => quietOracle) c9state
    ⟨by decide, fun n hn hmem => by simp [c9state, c9parent, mkEntity] at hmem; omega⟩
    ⟨by decide, fun n hn hmem => by simp [c9state, c9parent, mkEntity] at hmem; omega⟩
